import Mathlib

/-!
Verification of the "Analisador Musical com IA" web application.

The TypeScript sources are shallowly embedded into Lean:
pure string manipulation (regex-based extractors, duration parsing,
prompt templating) is translated into executable functions on
`List Char` / `String`; the stateful / effectful parts
(`fetch`-based services, the Gemini `generateContent` call, React
state updates) are modelled by passing the results of the external
calls in explicitly as oracle parameters and by recording the emitted
effects in an explicit trace.  JavaScript numbers are modelled as
`Int` / `Nat` / `Rat` (all values involved are exact in the source:
integer counts, integer BPM values and exact rational averages).
-/

/-! ## JavaScript character classes and string primitives -/

/-- JavaScript `\s` (whitespace class), restricted to the ASCII white
space characters that can actually occur in the strings handled here. -/
def isJsWs (c : Char) : Bool :=
  c = ' ' || c = '\t' || c = '\n' || c = '\r' || c = '\x0b' || c = '\x0c'

/-- JavaScript regex `.` : any character except a line terminator. -/
def isJsDot (c : Char) : Bool :=
  !(c = '\n' || c = '\r' || c.toNat = 0x2028 || c.toNat = 0x2029)

/-- Characters excluded by the capture class `[^&\n?#]` used by the
YouTube id extractors. -/
def isIdExcluded (c : Char) : Bool :=
  c = '&' || c = '\n' || c = '?' || c = '#'

/-- `String.prototype.trim` on the left, at the character-list level. -/
def jsTrimLeft (l : List Char) : List Char := l.dropWhile isJsWs

/-- `String.prototype.trim`, at the character-list level. -/
def jsTrimL (l : List Char) : List Char :=
  ((l.dropWhile isJsWs).reverse.dropWhile isJsWs).reverse

/-- `String.prototype.trim`. -/
def jsTrim (s : String) : String := String.mk (jsTrimL s.data)

/-- Numeric value of a list of decimal digit characters
(the behaviour of JavaScript `parseInt` on an all-digit string). -/
def parseNatDigits (l : List Char) : Nat :=
  l.foldl (fun acc c => acc * 10 + (c.toNat - '0'.toNat)) 0

/-- Strips a literal pattern from the front of the input, returning
the remainder on success (the way each regex literal is consumed). -/
def stripLitL : List Char → List Char → Option (List Char)
  | [], l => some l
  | _ :: _, [] => none
  | p :: ps, c :: cs => if c = p then stripLitL ps cs else none

theorem stripLitL_eq_some_iff (pat l t : List Char) :
    stripLitL pat l = some t ↔ l = pat ++ t := by
  induction pat generalizing l with
  | nil => simp [stripLitL]
  | cons p ps ih =>
    cases l with
    | nil => simp [stripLitL]
    | cons c cs =>
      by_cases hc : c = p
      · subst hc; simp [stripLitL, ih]
      · simp [stripLitL, hc, Ne.symm hc]

theorem stripLitL_append (pat t : List Char) :
    stripLitL pat (pat ++ t) = some t :=
  (stripLitL_eq_some_iff pat (pat ++ t) t).mpr rfl

/-- Boolean substring test (JavaScript `String.prototype.includes`),
at the character-list level. -/
def containsSubL : List Char → List Char → Bool
  | _, [] => true
  | [], _ :: _ => false
  | c :: rest, needle =>
    (stripLitL needle (c :: rest)).isSome || containsSubL rest needle

/-- JavaScript `haystack.includes(needle)`. -/
def jsIncludes (haystack needle : String) : Bool :=
  containsSubL haystack.data needle.data

/-- `n.toString().padStart(2, "0")` for a natural number. -/
def pad2 (n : Nat) : String :=
  if n < 10 then "0" ++ toString n else toString n

theorem containsSubL_iff_isInfix (needle l : List Char) :
    containsSubL l needle = true ↔ needle <:+: l := by
  induction l with
  | nil =>
    cases needle with
    | nil => exact ⟨fun _ => ⟨[], [], rfl⟩, fun _ => rfl⟩
    | cons c cs =>
      constructor
      · intro h; cases h
      · rintro ⟨s, t, hst⟩; simp at hst
  | cons c rest ih =>
    cases needle with
    | nil => exact ⟨fun _ => ⟨[], c :: rest, rfl⟩, fun _ => rfl⟩
    | cons n ns =>
      simp only [containsSubL, Bool.or_eq_true, ih]
      constructor
      · rintro (h | h)
        · obtain ⟨t, ht⟩ := Option.isSome_iff_exists.mp h
          exact ⟨[], t, by
            simp [(stripLitL_eq_some_iff (n :: ns) (c :: rest) t).mp ht]⟩
        · obtain ⟨s, t, hst⟩ := h
          exact ⟨c :: s, t, by simp [hst]⟩
      · rintro ⟨s, t, hst⟩
        cases s with
        | nil =>
          left
          rw [Option.isSome_iff_exists]
          exact ⟨t, (stripLitL_eq_some_iff _ _ _).mpr (by simpa using hst.symm)⟩
        | cons a as =>
          right
          exact ⟨as, t, by simpa using congrArg List.tail hst⟩

/-! ## `parseDuration` (src/services/geminiService.ts, also
`YouTubeService.parseDuration`)

```ts
function parseDuration(duration: string): number {
  const match = duration.match(/PT(?:(\d+)H)?(?:(\d+)M)?(?:(\d+)S)?/);
  if (!match) return 0;
  const hours = parseInt(match[1] || "0");
  const minutes = parseInt(match[2] || "0");
  const seconds = parseInt(match[3] || "0");
  return hours * 3600 + minutes * 60 + seconds;
}
```

The regex finds the first occurrence of the literal `PT` (all three
groups are optional, so the match succeeds exactly when `PT` occurs),
then each optional group `(?:(\d+)X)?` consumes the maximal digit run
only when that run is nonempty and immediately followed by the marker
letter `X` (the marker is not a digit, so no shorter run can be
followed by it). -/

/-- Suffix following the first occurrence of `PT`, if any
(the anchoring step of the regex search). -/
def findPT : List Char → Option (List Char)
  | [] => none
  | c₁ :: rest =>
    match rest with
    | [] => none
    | c₂ :: r => if c₁ = 'P' && c₂ = 'T' then some r else findPT rest

/-- One optional component `(?:(\d+)X)?` of the duration regex:
returns the parsed value (0 when the group does not participate)
and the remaining input. -/
def durComponent (marker : Char) (l : List Char) : Nat × List Char :=
  let d := l.takeWhile Char.isDigit
  match l.drop d.length with
  | c :: rest =>
    if d ≠ [] && c = marker then (parseNatDigits d, rest) else (0, l)
  | [] => (0, l)

/-- The part of `parseDuration` that runs after the regex has been
anchored at the first `PT`: the three optional component groups,
combined as `hours * 3600 + minutes * 60 + seconds`. -/
def parseDurationAfter (rest : List Char) : Nat :=
  (durComponent 'H' rest).1 * 3600 +
    (durComponent 'M' (durComponent 'H' rest).2).1 * 60 +
    (durComponent 'S' (durComponent 'M' (durComponent 'H' rest).2).2).1

/-- `parseDuration` on character lists. -/
def parseDurationL (l : List Char) : Nat :=
  match findPT l with
  | none => 0
  | some rest => parseDurationAfter rest

/-- Converts an ISO 8601 duration to seconds
(src/services/geminiService.ts `parseDuration`). -/
def parseDuration (s : String) : Nat := parseDurationL s.data

/-! Facts about `findPT` and `durComponent`. -/

theorem findPT_cons₂ (c₁ c₂ : Char) (r : List Char) :
    findPT (c₁ :: c₂ :: r) =
      if (decide (c₁ = 'P') && decide (c₂ = 'T')) = true then some r
      else findPT (c₂ :: r) := rfl

theorem findPT_eq_none_iff (l : List Char) :
    findPT l = none ↔ ¬ (['P', 'T'] <:+: l) := by
  induction l with
  | nil => simp [findPT]
  | cons c rest ih =>
    cases rest with
    | nil =>
      constructor
      · rintro - ⟨s, t, hst⟩
        rcases s with _ | ⟨a, _ | ⟨b, s⟩⟩ <;> simp_all
      · intro _; rfl
    | cons c₂ r =>
      rw [findPT_cons₂]
      by_cases h : c = 'P' ∧ c₂ = 'T'
      · obtain ⟨h1, h2⟩ := h
        subst h1; subst h2
        rw [if_pos (by decide)]
        constructor
        · intro h; cases h
        · intro h; exact absurd ⟨[], r, rfl⟩ h
      · have hb : ¬ ((decide (c = 'P') && decide (c₂ = 'T')) = true) := by
          rcases Decidable.not_and_iff_or_not.mp h with h1 | h1 <;> simp [h1]
        rw [if_neg hb, ih]
        constructor
        · rintro hn ⟨s, t, hst⟩
          cases s with
          | nil =>
            apply h
            have := congrArg (List.take 2) hst
            simp at this
            exact ⟨this.1.symm, this.2.symm⟩
          | cons a as =>
            exact hn ⟨as, t, by simpa using congrArg List.tail hst⟩
        · intro hn ⟨s, t, hst⟩
          exact hn ⟨c :: s, t, by simp [hst]⟩

theorem takeWhile_append_of_all {p : Char → Bool} {d : List Char}
    (hd : ∀ c ∈ d, p c = true) {c : Char} (hc : p c = false)
    (r : List Char) :
    (d ++ c :: r).takeWhile p = d ∧ (d ++ c :: r).drop d.length = c :: r := by
  induction d with
  | nil => simp [List.takeWhile, hc]
  | cons a as ih =>
    have ha : p a = true := hd a (by simp)
    have ih' := ih (fun x hx => hd x (by simp [hx]))
    simp only [List.cons_append, List.takeWhile_cons, ha, if_true,
      List.length_cons, List.drop_succ_cons]
    exact ⟨by rw [ih'.1], ih'.2⟩

/-- Optional component rendered into the input string. -/
def optComp (marker : Char) : Option (List Char) → List Char
  | none => []
  | some d => d ++ [marker]

/-- Value contributed by an optional component. -/
def optVal : Option (List Char) → Nat
  | none => 0
  | some d => parseNatDigits d

/-- An optional component is well formed when, if present, it is a
nonempty digit string. -/
def optWF : Option (List Char) → Prop
  | none => True
  | some d => d ≠ [] ∧ ∀ c ∈ d, c.isDigit = true

theorem durComponent_hit {marker : Char} (hm : marker.isDigit = false)
    {d : List Char} (hd : d ≠ []) (hdig : ∀ c ∈ d, c.isDigit = true)
    (r : List Char) :
    durComponent marker (d ++ marker :: r) = (parseNatDigits d, r) := by
  obtain ⟨ht, hdr⟩ := takeWhile_append_of_all hdig hm r
  simp only [durComponent, ht, hdr]
  rw [if_pos (by simp [hd])]

theorem durComponent_skip {marker : Char} {d : List Char}
    (hdig : ∀ c ∈ d, c.isDigit = true) {c : Char}
    (hc : c.isDigit = false) (hcm : c ≠ marker) (r : List Char) :
    durComponent marker (d ++ c :: r) = (0, d ++ c :: r) := by
  obtain ⟨ht, hdr⟩ := takeWhile_append_of_all hdig hc r
  simp only [durComponent, ht, hdr, hcm]
  simp

theorem durComponent_nil (marker : Char) : durComponent marker [] = (0, []) := by
  simp [durComponent]

theorem findPT_PT (r : List Char) : findPT ('P' :: 'T' :: r) = some r := by
  simp [findPT]

theorem parseDurationL_components
    (oh om os : Option (List Char))
    (hh : optWF oh) (hm : optWF om) (hs : optWF os) :
    parseDurationL
        ('P' :: 'T' :: (optComp 'H' oh ++ optComp 'M' om ++ optComp 'S' os)) =
      optVal oh * 3600 + optVal om * 60 + optVal os := by
  simp only [parseDurationL, findPT_PT, parseDurationAfter]
  rcases oh with _ | dh <;> rcases om with _ | dm <;> rcases os with _ | ds <;>
    simp only [optComp, optVal, List.nil_append, List.append_nil,
      List.append_assoc, List.cons_append]
  · -- no components at all
    simp [durComponent_nil]
  · -- only seconds
    rw [show ds ++ ['S'] = ds ++ 'S' :: [] from rfl]
    rw [durComponent_skip hs.2 (by decide) (by decide),
      durComponent_skip hs.2 (by decide) (by decide),
      durComponent_hit (by decide) hs.1 hs.2]
  · -- only minutes
    rw [show dm ++ ['M'] = dm ++ 'M' :: [] from rfl]
    rw [durComponent_skip hm.2 (by decide) (by decide),
      durComponent_hit (by decide) hm.1 hm.2, durComponent_nil]
  · -- minutes and seconds
    rw [durComponent_skip hm.2 (by decide) (by decide),
      durComponent_hit (by decide) hm.1 hm.2]
    rw [show ds ++ ['S'] = ds ++ 'S' :: [] from rfl]
    rw [durComponent_hit (by decide) hs.1 hs.2]
  · -- only hours
    rw [show dh ++ ['H'] = dh ++ 'H' :: [] from rfl]
    rw [durComponent_hit (by decide) hh.1 hh.2, durComponent_nil,
      durComponent_nil]
  · -- hours and seconds
    rw [durComponent_hit (by decide) hh.1 hh.2]
    rw [show ds ++ ['S'] = ds ++ 'S' :: [] from rfl]
    rw [durComponent_skip hs.2 (by decide) (by decide),
      durComponent_hit (by decide) hs.1 hs.2]
  · -- hours and minutes
    rw [durComponent_hit (by decide) hh.1 hh.2]
    rw [show dm ++ ['M'] = dm ++ 'M' :: [] from rfl]
    rw [durComponent_hit (by decide) hm.1 hm.2, durComponent_nil]
  · -- all three
    rw [durComponent_hit (by decide) hh.1 hh.2,
      durComponent_hit (by decide) hm.1 hm.2]
    rw [show ds ++ ['S'] = ds ++ 'S' :: [] from rfl]
    rw [durComponent_hit (by decide) hs.1 hs.2]

/-- C8: `parseDuration` is total and non-negative on every input
string (it is a Lean function into `Nat`); on an ISO 8601 duration
`PT{h}H{m}M{s}S` whose hour / minute / second components are each
either absent or a nonempty digit string, it returns
`h*3600 + m*60 + s` with absent components counted as 0; and on every
string in which the substring `PT` does not occur it returns 0. -/
theorem parseDuration_spec :
    (∀ (oh om os : Option (List Char)),
        optWF oh → optWF om → optWF os →
        parseDuration (String.mk
            ('P' :: 'T' ::
              (optComp 'H' oh ++ optComp 'M' om ++ optComp 'S' os))) =
          optVal oh * 3600 + optVal om * 60 + optVal os) ∧
    (∀ s : String, ¬ (['P', 'T'] <:+: s.data) → parseDuration s = 0) := by
  constructor
  · intro oh om os hh hm hs
    exact parseDurationL_components oh om os hh hm hs
  · intro s hno
    have : findPT s.data = none := (findPT_eq_none_iff s.data).mpr hno
    simp [parseDuration, parseDurationL, this]

/-- Witness for C8 at concrete inputs: "PT1H23S" parses to 3623 and a
string without "PT" parses to 0. -/
theorem parseDuration_spec_witness :
    parseDuration (String.mk
        ('P' :: 'T' ::
          (optComp 'H' (some ['1']) ++ optComp 'M' none ++
            optComp 'S' (some ['2', '3'])))) =
        optVal (some ['1']) * 3600 + optVal none * 60 +
          optVal (some ['2', '3']) ∧
      parseDuration "3:45" = 0 :=
  ⟨parseDuration_spec.1 (some ['1']) none (some ['2', '3'])
      ⟨by decide, by decide⟩ trivial ⟨by decide, by decide⟩,
    parseDuration_spec.2 "3:45" (by decide)⟩

/-! ## YouTube URL classification (src/services/youtube.service.ts)

```ts
extractVideoId(url: string): string | null {
  const patterns = [
    /(?:youtube\.com\/watch\?v=|youtu\.be\/|youtube\.com\/embed\/|youtube\.com\/v\/)([^&\n?#]+)/,
    /youtube\.com\/watch\?.*v=([^&\n?#]+)/,
    /youtube\.com\/shorts\/([^&\n?#]+)/
  ];
  for (const pattern of patterns) {
    const match = url.match(pattern);
    if (match) return match[1];
  }
  return null;
}
extractPlaylistId(url: string): string | null {
  const match = url.match(/[&?]list=([^&\n?#]+)/);
  return match ? match[1] : null;
}
getUrlType(url: string): 'video' | 'playlist' | 'unknown' {
  if (this.extractPlaylistId(url)) return 'playlist';
  if (this.extractVideoId(url)) return 'video';
  return 'unknown';
}
```
-/

/-- One literal alternative followed by the capture `([^&\n?#]+)`:
succeeds when the literal matches here and at least one admissible
character follows, returning the (greedy) capture. -/
def litCaptureAt (pat l : List Char) : Option (List Char) :=
  match stripLitL pat l with
  | none => none
  | some rest =>
    let cap := rest.takeWhile (fun c => !isIdExcluded c)
    if cap.isEmpty then none else some cap

/-- Alternation `(?:A|B|...)` tried at a fixed position, in source
order (JavaScript alternation preference). -/
def altCaptureAt (alts : List (List Char)) (l : List Char) : Option (List Char) :=
  match alts with
  | [] => none
  | p :: ps =>
    match litCaptureAt p l with
    | some cap => some cap
    | none => altCaptureAt ps l

/-- Leftmost regex search: the alternation is tried at every start
position, left to right. -/
def scanAlts (alts : List (List Char)) : List Char → Option (List Char)
  | [] => altCaptureAt alts []
  | c :: rest =>
    match altCaptureAt alts (c :: rest) with
    | some cap => some cap
    | none => scanAlts alts rest

/-- The second video-id regex, tried at a fixed position right after
the literal `youtube.com/watch?`: the greedy `.*` selects the last
occurrence of `v=` that is preceded only by non-line-terminator
characters and followed by a nonempty capture. `pat2At rest k` tries
`v=` at offset `k`. -/
def pat2At (rest : List Char) (k : Nat) : Option (List Char) :=
  if (rest.take k).all isJsDot then
    match stripLitL ['v', '='] (rest.drop k) with
    | none => none
    | some t =>
      let cap := t.takeWhile (fun c => !isIdExcluded c)
      if cap.isEmpty then none else some cap
  else none

/-- Greedy `.*`: offsets are tried from the largest down to 0. -/
def pat2TryJ (rest : List Char) : Nat → Option (List Char)
  | 0 => pat2At rest 0
  | k + 1 =>
    match pat2At rest (k + 1) with
    | some cap => some cap
    | none => pat2TryJ rest k

/-- The literal of the second video-id pattern. -/
def watchLit : List Char :=
  ['y', 'o', 'u', 't', 'u', 'b', 'e', '.', 'c', 'o', 'm', '/', 'w', 'a',
    't', 'c', 'h', '?']

/-- Leftmost search for the second video-id pattern. -/
def scanPat2 : List Char → Option (List Char)
  | [] => none
  | c :: rest =>
    match stripLitL watchLit (c :: rest) with
    | some t =>
      match pat2TryJ t t.length with
      | some cap => some cap
      | none => scanPat2 rest
    | none => scanPat2 rest

/-- The alternatives of the first video-id pattern, in source order. -/
def videoIdAlts : List (List Char) :=
  ["youtube.com/watch?v=".data, "youtu.be/".data, "youtube.com/embed/".data,
    "youtube.com/v/".data]

namespace YouTubeService

/-- `YouTubeService.extractVideoId`: the three patterns are tried over
the whole URL, in order. -/
def extractVideoId (url : String) : Option String :=
  match scanAlts videoIdAlts url.data with
  | some cap => some (String.mk cap)
  | none =>
    match scanPat2 url.data with
    | some cap => some (String.mk cap)
    | none =>
      match scanAlts ["youtube.com/shorts/".data] url.data with
      | some cap => some (String.mk cap)
      | none => none

/-- One position of the playlist-id regex `[&?]list=([^&\n?#]+)`. -/
def playlistMatchAt (l : List Char) : Option (List Char) :=
  match l with
  | [] => none
  | c :: rest =>
    if c = '&' || c = '?' then litCaptureAt "list=".data rest else none

/-- Leftmost search for the playlist-id regex. -/
def scanPlaylist : List Char → Option (List Char)
  | [] => none
  | c :: rest =>
    match playlistMatchAt (c :: rest) with
    | some cap => some cap
    | none => scanPlaylist rest

/-- `YouTubeService.extractPlaylistId`. -/
def extractPlaylistId (url : String) : Option String :=
  (scanPlaylist url.data).map String.mk

/-- The classification returned by `YouTubeService.getUrlType`. -/
inductive UrlType
  | video
  | playlist
  | unknown
deriving DecidableEq

/-- `YouTubeService.getUrlType`: playlist detection first, then video,
else unknown. -/
def getUrlType (url : String) : UrlType :=
  if (extractPlaylistId url).isSome then .playlist
  else if (extractVideoId url).isSome then .video
  else .unknown

end YouTubeService

theorem scanPlaylist_isSome_append (pre l : List Char)
    (h : (YouTubeService.playlistMatchAt l).isSome) :
    (YouTubeService.scanPlaylist (pre ++ l)).isSome := by
  induction pre with
  | nil =>
    cases l with
    | nil => simp [YouTubeService.playlistMatchAt] at h
    | cons c rest =>
      obtain ⟨cap, hcap⟩ := Option.isSome_iff_exists.mp h
      simp [YouTubeService.scanPlaylist, hcap]
  | cons p ps ih =>
    rw [List.cons_append]
    show (YouTubeService.scanPlaylist (p :: (ps ++ l))).isSome
    rw [YouTubeService.scanPlaylist]
    cases hm : YouTubeService.playlistMatchAt (p :: (ps ++ l)) with
    | some cap => simp
    | none => simpa using ih

theorem playlistMatchAt_param (c d : Char) (rest : List Char)
    (hc : c = '&' ∨ c = '?') (hd : isIdExcluded d = false) :
    (YouTubeService.playlistMatchAt
        (c :: ("list=".data ++ d :: rest))).isSome := by
  have hcb : (decide (c = '&') || decide (c = '?')) = true := by
    rcases hc with h | h <;> simp [h]
  rw [YouTubeService.playlistMatchAt]
  rw [if_pos hcb]
  rw [litCaptureAt, stripLitL_append]
  simp [List.takeWhile_cons, hd]

/-- C10: `getUrlType` gives playlist detection precedence over video
detection.  (1) Every URL containing a `list=` query parameter
(`&list=` or `?list=` followed by at least one character admissible in
the capture class) is classified `playlist`, regardless of any video
id also present in the URL; (2) `video` is returned exactly when no
playlist id but a video id can be extracted; (3) `unknown` exactly
when neither can. -/
theorem getUrlType_spec :
    (∀ (pre rest : List Char) (c d : Char),
        (c = '&' ∨ c = '?') → isIdExcluded d = false →
        YouTubeService.getUrlType
            (String.mk (pre ++ c :: ("list=".data ++ d :: rest))) =
          YouTubeService.UrlType.playlist) ∧
    (∀ url : String,
        YouTubeService.getUrlType url = YouTubeService.UrlType.video ↔
          YouTubeService.extractPlaylistId url = none ∧
            (YouTubeService.extractVideoId url).isSome) ∧
    (∀ url : String,
        YouTubeService.getUrlType url = YouTubeService.UrlType.unknown ↔
          YouTubeService.extractPlaylistId url = none ∧
            YouTubeService.extractVideoId url = none) := by
  refine ⟨?_, ?_, ?_⟩
  · intro pre rest c d hc hd
    have h :=
      scanPlaylist_isSome_append pre (c :: ("list=".data ++ d :: rest))
        (playlistMatchAt_param c d rest hc hd)
    have hurl :
        (YouTubeService.extractPlaylistId
          (String.mk (pre ++ c :: ("list=".data ++ d :: rest)))).isSome := by
      simpa [YouTubeService.extractPlaylistId] using h
    rw [YouTubeService.getUrlType, if_pos hurl]
  · intro url
    by_cases h1 : (YouTubeService.extractPlaylistId url).isSome
    · simp [YouTubeService.getUrlType, h1, Option.isSome_iff_ne_none.mp h1]
    · by_cases h2 : (YouTubeService.extractVideoId url).isSome
      · simp [YouTubeService.getUrlType, h1, h2,
          Option.not_isSome_iff_eq_none.mp h1]
      · simp [YouTubeService.getUrlType, h1, h2,
          Option.not_isSome_iff_eq_none.mp h1]
  · intro url
    by_cases h1 : (YouTubeService.extractPlaylistId url).isSome
    · simp [YouTubeService.getUrlType, h1, Option.isSome_iff_ne_none.mp h1]
    · by_cases h2 : (YouTubeService.extractVideoId url).isSome
      · simp [YouTubeService.getUrlType, h1, h2,
          Option.not_isSome_iff_eq_none.mp h1, Option.isSome_iff_ne_none.mp h2]
      · simp [YouTubeService.getUrlType, h1, h2,
          Option.not_isSome_iff_eq_none.mp h1,
          Option.not_isSome_iff_eq_none.mp h2]

/-- Witness for C10 at a concrete URL carrying both a `v=` video id
and a `list=` playlist id: the playlist wins. -/
theorem getUrlType_spec_witness :
    YouTubeService.getUrlType
        (String.mk ("https://www.youtube.com/watch?v=abc".data ++
          '&' :: ("list=".data ++ 'P' :: "L99".data))) =
      YouTubeService.UrlType.playlist :=
  getUrlType_spec.1 "https://www.youtube.com/watch?v=abc".data "L99".data
    '&' 'P' (Or.inl rfl) (by decide)

/-! ## `extractTitleAndArtist` (src/services/geminiService.ts)

```ts
function extractTitleAndArtist(videoTitle: string): { title: string; artist: string } {
  const patterns = [
    /^(.+?)\s*[-x2013x2014]\s*(.+?)(?:\s*\(.*\))?(?:\s*\[.*\])?$/,
    /^(.+?)\s*:\s*(.+?)(?:\s*\(.*\))?(?:\s*\[.*\])?$/,
    /^(.+?)\s+by\s+(.+?)(?:\s*\(.*\))?(?:\s*\[.*\])?$/i
  ];
  for (const pattern of patterns) {
    const match = videoTitle.match(pattern);
    if (match) {
      return { artist: match[1].trim(), title: match[2].trim() };
    }
  }
  return {
    title: videoTitle.replace(/\s*\(.*\)|\s*\[.*\]/g, "").trim(),
    artist: "Unknown Artist"
  };
}
```
(the `[-x2013x2014]` class above stands for ASCII hyphen, en dash
U+2013 and em dash U+2014).

The embedding implements the exact backtracking order of the regex
engine: the lazy `(.+?)` groups extend one character at a time
(shortest first), `\s*` / `\s+` are greedy with backtracking (longest
run first), and the two optional trailing groups `(?:\s*\(.*\))?`
`(?:\s*\[.*\])?` succeed when the remaining text splits into an
optional `\s*(...)` segment followed by an optional `\s*[...]`
segment reaching the end of the string. -/

/-- Does `p` match `\s*\(.*\)` exactly (or is it empty, the optional
group not participating)?  `.*` cannot cross a line terminator. -/
def parenSeg (p : List Char) : Bool :=
  p.isEmpty ||
    (match p.dropWhile isJsWs with
     | c :: qs =>
       c = '(' && !qs.isEmpty && qs.getLast? = some ')' &&
         qs.dropLast.all isJsDot
     | [] => false)

/-- Does `p` match `\s*\[.*\]` exactly (or is it empty)? -/
def brackSeg (p : List Char) : Bool :=
  p.isEmpty ||
    (match p.dropWhile isJsWs with
     | c :: qs =>
       c = '[' && !qs.isEmpty && qs.getLast? = some ']' &&
         qs.dropLast.all isJsDot
     | [] => false)

/-- `(?:\s*\(.*\))?(?:\s*\[.*\])?$` : the remaining text splits into
an optional paren segment followed by an optional bracket segment. -/
def optEnd (r : List Char) : Bool :=
  (List.range (r.length + 1)).any
    (fun i => parenSeg (r.take i) && brackSeg (r.drop i))

/-- The lazy second capture `(.+?)` followed by `optEnd`: the group
grows one character at a time until the trailing part matches. -/
def g2go (acc : List Char) : List Char → Option (List Char)
  | [] => none
  | c :: rs =>
    if isJsDot c then
      if optEnd rs then some (acc ++ [c]) else g2go (acc ++ [c]) rs
    else none

/-- Capture of `(.+?)(?:\s*\(.*\))?(?:\s*\[.*\])?$`. -/
def g2match (t : List Char) : Option (List Char) := g2go [] t

/-- `\s*(.+?)...` after the separator: the greedy `\s*` tries the
longest whitespace run first and backtracks downwards. -/
def wsTryJ (r : List Char) : Nat → Option (List Char)
  | 0 => g2match r
  | j + 1 =>
    match g2match (r.drop (j + 1)) with
    | some g2 => some g2
    | none => wsTryJ r j

/-- `\s*(.+?)(?:\s*\(.*\))?(?:\s*\[.*\])?$`. -/
def afterSep (r : List Char) : Option (List Char) :=
  wsTryJ r (r.takeWhile isJsWs).length

/-- Separator attempt at offset `k` (the characters before `k` are
whitespace by construction): a separator character must stand at `k`,
then the rest of the pattern must match. -/
def sepAt (seps : Char → Bool) (t : List Char) (k : Nat) :
    Option (List Char) :=
  match t.drop k with
  | c :: r => if seps c then afterSep r else none
  | [] => none

/-- `\s*SEP...` : greedy `\s*`, offsets tried from the whitespace-run
length down to 0. -/
def sepTryK (seps : Char → Bool) (t : List Char) : Nat → Option (List Char)
  | 0 => sepAt seps t 0
  | k + 1 =>
    match sepAt seps t (k + 1) with
    | some g2 => some g2
    | none => sepTryK seps t k

/-- Everything after the first capture group. -/
def afterG1 (seps : Char → Bool) (t : List Char) : Option (List Char) :=
  sepTryK seps t (t.takeWhile isJsWs).length

/-- The lazy first capture `^(.+?)`: grows one character at a time,
attempting the rest of the pattern after each extension. -/
def g1go (seps : Char → Bool) (acc : List Char) :
    List Char → Option (List Char × List Char)
  | [] => none
  | c :: rs =>
    if isJsDot c then
      match afterG1 seps rs with
      | some g2 => some (acc ++ [c], g2)
      | none => g1go seps (acc ++ [c]) rs
    else none

/-- Full match of `^(.+?)\s*SEP\s*(.+?)(?:\s*\(.*\))?(?:\s*\[.*\])?$`
returning the two captures. -/
def patMatch (seps : Char → Bool) (l : List Char) :
    Option (List Char × List Char) :=
  g1go seps [] l

/-- The separator class `[-–—]` of the first pattern (hyphen,
en dash U+2013, em dash U+2014). -/
def dashSeps (c : Char) : Bool :=
  c = '-' || c = '–' || c = '—'

/-- The separator class of the second pattern. -/
def colonSeps (c : Char) : Bool := c = ':'

/-- `\s+(.+?)...` after `by` : greedy `\s+` (at least one). -/
def byWsTryJ (r : List Char) : Nat → Option (List Char)
  | 0 => none
  | j + 1 =>
    match g2match (r.drop (j + 1)) with
    | some g2 => some g2
    | none => byWsTryJ r j

/-- `by\s+(.+?)...` attempt at offset `k ≥ 1` (case-insensitive). -/
def byAt (t : List Char) (k : Nat) : Option (List Char) :=
  match t.drop k with
  | b :: y :: r =>
    if (b = 'b' || b = 'B') && (y = 'y' || y = 'Y') then
      byWsTryJ r (r.takeWhile isJsWs).length
    else none
  | _ => none

/-- `\s+by...` : greedy `\s+`, offsets from the run length down to 1. -/
def byTryK (t : List Char) : Nat → Option (List Char)
  | 0 => none
  | k + 1 =>
    match byAt t (k + 1) with
    | some g2 => some g2
    | none => byTryK t k

/-- Everything after the first capture group of the `by` pattern. -/
def afterG1By (t : List Char) : Option (List Char) :=
  byTryK t (t.takeWhile isJsWs).length

/-- First capture loop of the `by` pattern. -/
def g1goBy (acc : List Char) : List Char → Option (List Char × List Char)
  | [] => none
  | c :: rs =>
    if isJsDot c then
      match afterG1By rs with
      | some g2 => some (acc ++ [c], g2)
      | none => g1goBy (acc ++ [c]) rs
    else none

/-- Full match of `^(.+?)\s+by\s+(.+?)(?:\s*\(.*\))?(?:\s*\[.*\])?$/i`. -/
def patMatchBy (l : List Char) : Option (List Char × List Char) :=
  g1goBy [] l

/-- `.*CLOSE` greedy inside the fallback replacement: remainder after
the last occurrence of `close` in the list (which is the maximal
dot-run at this point). -/
def closeSplit (close : Char) : List Char → Option (List Char)
  | [] => none
  | c :: rest =>
    match closeSplit close rest with
    | some r => some r
    | none => if c = close then some rest else none

/-- `\s*OPEN.*CLOSE` attempted at the current position; returns the
remainder after the match. -/
def grabEnclosed (opn close : Char) (l : List Char) : Option (List Char) :=
  match l.drop (l.takeWhile isJsWs).length with
  | c :: rest =>
    if c = opn then
      match closeSplit close (rest.takeWhile isJsDot) with
      | some segRem => some (segRem ++ rest.drop (rest.takeWhile isJsDot).length)
      | none => none
    else none
  | [] => none

/-- One position of the fallback replacement regex
`\s*\(.*\)|\s*\[.*\]` (alternatives in source order). -/
def replaceStep (l : List Char) : Option (List Char) :=
  match grabEnclosed '(' ')' l with
  | some rem => some rem
  | none => grabEnclosed '[' ']' l

/-- Global replacement by the empty string: scan left to right,
resuming right after each match.  The fuel argument only bounds the
recursion; every step consumes at least one character, so
`fuel = l.length` is always enough. -/
def replaceAllPB : Nat → List Char → List Char
  | 0, l => l
  | _, [] => []
  | fuel + 1, c :: rest =>
    match replaceStep (c :: rest) with
    | some rem => replaceAllPB fuel rem
    | none => c :: replaceAllPB fuel rest

/-- Result record of `extractTitleAndArtist`. -/
structure TitleArtist where
  title : String
  artist : String
deriving DecidableEq

/-- `extractTitleAndArtist` (src/services/geminiService.ts): the three
separator patterns in order, then the parenthesis/bracket-stripping
fallback with artist `"Unknown Artist"`. -/
def extractTitleAndArtist (videoTitle : String) : TitleArtist :=
  match patMatch dashSeps videoTitle.data with
  | some (g1, g2) =>
    { artist := String.mk (jsTrimL g1), title := String.mk (jsTrimL g2) }
  | none =>
    match patMatch colonSeps videoTitle.data with
    | some (g1, g2) =>
      { artist := String.mk (jsTrimL g1), title := String.mk (jsTrimL g2) }
    | none =>
      match patMatchBy videoTitle.data with
      | some (g1, g2) =>
        { artist := String.mk (jsTrimL g1), title := String.mk (jsTrimL g2) }
      | none =>
        { title := String.mk
            (jsTrimL (replaceAllPB videoTitle.data.length videoTitle.data)),
          artist := "Unknown Artist" }

/-! Generic helper lemmas about `takeWhile` / `dropWhile` / `jsTrimL`. -/

theorem dropWhile_append_all {p : Char → Bool} {u : List Char}
    (hu : ∀ c ∈ u, p c = true) (v : List Char) :
    (u ++ v).dropWhile p = v.dropWhile p := by
  induction u with
  | nil => rfl
  | cons a as ih =>
    have ha : p a = true := hu a (by simp)
    simp only [List.cons_append, List.dropWhile_cons, ha, if_true]
    exact ih (fun c hc => hu c (by simp [hc]))

theorem dropWhile_eq_nil_of_all {p : Char → Bool} {l : List Char}
    (h : ∀ c ∈ l, p c = true) : l.dropWhile p = [] := by
  induction l with
  | nil => rfl
  | cons a as ih =>
    have ha : p a = true := h a (by simp)
    simp only [List.dropWhile_cons, ha, if_true]
    exact ih (fun c hc => h c (by simp [hc]))

theorem dropWhile_idem (p : Char → Bool) (l : List Char) :
    (l.dropWhile p).dropWhile p = l.dropWhile p := by
  induction l with
  | nil => rfl
  | cons a as ih =>
    by_cases ha : p a = true
    · simp only [List.dropWhile_cons, ha, if_true]
      exact ih
    · simp [List.dropWhile_cons, ha]

theorem jsTrimL_append_ws {a w : List Char}
    (hw : ∀ c ∈ w, isJsWs c = true) : jsTrimL (a ++ w) = jsTrimL a := by
  unfold jsTrimL
  rw [List.dropWhile_append]
  by_cases h : (a.dropWhile isJsWs).isEmpty
  · rw [if_pos h, dropWhile_eq_nil_of_all hw]
    have ha : a.dropWhile isJsWs = [] := by
      cases hd : a.dropWhile isJsWs with
      | nil => rfl
      | cons x xs => rw [hd] at h; simp [List.isEmpty] at h
    rw [ha]
  · rw [if_neg h, List.reverse_append]
    rw [dropWhile_append_all (fun c hc => hw c (List.mem_reverse.mp hc))]

theorem jsTrimL_of_all_ws {l : List Char}
    (h : ∀ c ∈ l, isJsWs c = true) : jsTrimL l = [] := by
  unfold jsTrimL
  rw [dropWhile_eq_nil_of_all h]
  rfl

theorem jsTrimL_dropWhile (l : List Char) :
    jsTrimL (l.dropWhile isJsWs) = jsTrimL l := by
  unfold jsTrimL
  rw [dropWhile_idem]

theorem takeWhile_length_lt {p : Char → Bool} {l : List Char}
    (h : ¬ ∀ c ∈ l, p c = true) : (l.takeWhile p).length < l.length := by
  induction l with
  | nil => exact absurd (by intro c hc; cases hc) h
  | cons c rest ih =>
    by_cases hc : p c = true
    · have hr : ¬ ∀ x ∈ rest, p x = true := by
        intro hall
        exact h (by
          intro x hx
          rcases List.mem_cons.mp hx with rfl | hx
          · exact hc
          · exact hall x hx)
      simp only [List.takeWhile_cons, hc, if_true, List.length_cons]
      exact Nat.succ_lt_succ (ih hr)
    · simp only [List.takeWhile_cons, hc, if_false, Bool.false_eq_true,
        List.length_nil, List.length_cons]
      exact Nat.succ_pos _

theorem takeWhile_append_left {p : Char → Bool} {xs : List Char}
    (h : ¬ ∀ c ∈ xs, p c = true) (z : List Char) :
    (xs ++ z).takeWhile p = xs.takeWhile p := by
  induction xs with
  | nil => exact absurd (by intro c hc; cases hc) h
  | cons c rest ih =>
    by_cases hc : p c = true
    · have hr : ¬ ∀ x ∈ rest, p x = true := by
        intro hall
        exact h (by
          intro x hx
          rcases List.mem_cons.mp hx with rfl | hx
          · exact hc
          · exact hall x hx)
      simp only [List.cons_append, List.takeWhile_cons, hc, if_true]
      rw [ih hr]
    · simp [List.takeWhile_cons, hc]

theorem takeWhile_eq_self_of_all {p : Char → Bool} {l : List Char}
    (h : ∀ c ∈ l, p c = true) : l.takeWhile p = l := by
  induction l with
  | nil => rfl
  | cons c rest ih =>
    simp only [List.takeWhile_cons, h c (by simp), if_true]
    rw [ih (fun x hx => h x (by simp [hx]))]

theorem drop_append_le {k : Nat} {a : List Char} (b : List Char)
    (h : k ≤ a.length) : (a ++ b).drop k = a.drop k ++ b := by
  induction a generalizing k with
  | nil =>
    have : k = 0 := Nat.le_zero.mp h
    subst this
    simp
  | cons x xs ih =>
    cases k with
    | zero => simp
    | succ k' =>
      simp only [List.cons_append, List.drop_succ_cons]
      exact ih (Nat.le_of_succ_le_succ h)

/-! Facts about the pattern-matcher building blocks. -/

theorem parenSeg_mem {p : List Char} (h : parenSeg p = true) :
    p = [] ∨ '(' ∈ p := by
  unfold parenSeg at h
  rcases Bool.or_eq_true_iff.mp h with h1 | h1
  · left
    exact List.isEmpty_iff.mp h1
  · right
    cases hq : p.dropWhile isJsWs with
    | nil => rw [hq] at h1; cases h1
    | cons c qs =>
      rw [hq] at h1
      have hc : c = '(' := by
        by_contra hne
        simp [hne] at h1
      have hmem : '(' ∈ p.dropWhile isJsWs := by rw [hq, hc]; simp
      have := List.takeWhile_append_dropWhile isJsWs p
      rw [← this]
      exact List.mem_append.mpr (Or.inr hmem)

theorem brackSeg_mem {p : List Char} (h : brackSeg p = true) :
    p = [] ∨ '[' ∈ p := by
  unfold brackSeg at h
  rcases Bool.or_eq_true_iff.mp h with h1 | h1
  · left
    exact List.isEmpty_iff.mp h1
  · right
    cases hq : p.dropWhile isJsWs with
    | nil => rw [hq] at h1; cases h1
    | cons c qs =>
      rw [hq] at h1
      have hc : c = '[' := by
        by_contra hne
        simp [hne] at h1
      have hmem : '[' ∈ p.dropWhile isJsWs := by rw [hq, hc]; simp
      have := List.takeWhile_append_dropWhile isJsWs p
      rw [← this]
      exact List.mem_append.mpr (Or.inr hmem)

theorem optEnd_nil : optEnd [] = true := rfl

theorem optEnd_false {r : List Char} (hne : r ≠ [])
    (hp : '(' ∉ r) (hb : '[' ∉ r) : optEnd r = false := by
  unfold optEnd
  rw [List.any_eq_false]
  intro i _
  simp only [Bool.and_eq_true, not_and]
  intro hps hbs
  rcases parenSeg_mem hps with htake | hmem
  · have hi : i = 0 := by
      rcases List.take_eq_nil_iff.mp htake with h | h
      · exact h
      · exact absurd h hne
    subst hi
    simp only [List.drop_zero] at hbs
    rcases brackSeg_mem hbs with h | h
    · exact hne h
    · exact hb h
  · exact hp (List.take_subset i r hmem)

theorem g2go_full (Y : List Char) :
    ∀ acc, Y ≠ [] → (∀ c ∈ Y, isJsDot c = true) → '(' ∉ Y → '[' ∉ Y →
      g2go acc Y = some (acc ++ Y) := by
  induction Y with
  | nil => intro acc hne _ _ _; exact absurd rfl hne
  | cons y ys ih =>
    intro acc _ hdot hp hb
    have hy : isJsDot y = true := hdot y (by simp)
    show (if isJsDot y = true then
        (if optEnd ys = true then some (acc ++ [y]) else g2go (acc ++ [y]) ys)
      else none) = some (acc ++ y :: ys)
    rw [if_pos hy]
    cases hys : ys with
    | nil => rw [optEnd_nil, if_pos rfl]
    | cons z zs =>
      rw [← hys]
      have hne' : ys ≠ [] := by rw [hys]; exact List.cons_ne_nil z zs
      have hoe : optEnd ys = false :=
        optEnd_false hne' (fun hm => hp (by simp [hm]))
          (fun hm => hb (by simp [hm]))
      rw [hoe, if_neg (by simp)]
      rw [ih (acc ++ [y]) hne' (fun c hc => hdot c (by simp [hc]))
        (fun hm => hp (by simp [hm])) (fun hm => hb (by simp [hm]))]
      simp

theorem g2match_full {Y : List Char} (hne : Y ≠ [])
    (hdot : ∀ c ∈ Y, isJsDot c = true) (hp : '(' ∉ Y) (hb : '[' ∉ Y) :
    g2match Y = some Y := by
  have := g2go_full Y [] hne hdot hp hb
  simpa [g2match] using this

theorem drop_ne_nil_of_lt {l : List Char} {k : Nat} (h : k < l.length) :
    l.drop k ≠ [] := by
  intro hnil
  have := List.length_drop k l
  rw [hnil] at this
  simp at this
  omega

theorem mem_of_mem_drop {l : List Char} {k : Nat} {c : Char}
    (h : c ∈ l.drop k) : c ∈ l :=
  (List.drop_suffix k l).subset h

theorem wsTryJ_succ (r : List Char) (j : Nat) :
    wsTryJ r (j + 1) =
      match g2match (r.drop (j + 1)) with
      | some g2 => some g2
      | none => wsTryJ r j := rfl

theorem drop_takeWhile_length (p : Char → Bool) (l : List Char) :
    l.drop (l.takeWhile p).length = l.dropWhile p := by
  induction l with
  | nil => rfl
  | cons c rest ih =>
    by_cases hc : p c = true
    · simp only [List.takeWhile_cons, hc, if_true, List.length_cons,
        List.drop_succ_cons, List.dropWhile_cons]
      exact ih
    · simp [List.takeWhile_cons, List.dropWhile_cons, hc]

theorem afterSep_spec (Y : List Char) (hne : Y ≠ [])
    (hdot : ∀ c ∈ Y, isJsDot c = true) (hp : '(' ∉ Y) (hb : '[' ∉ Y) :
    ∃ g2, afterSep Y = some g2 ∧ jsTrimL g2 = jsTrimL Y := by
  unfold afterSep
  by_cases hall : ∀ c ∈ Y, isJsWs c = true
  · -- `Y` all whitespace: `\s*` backtracks one step; the capture is
    -- the last whitespace character (or all of `Y` when `|Y| = 1`),
    -- and both sides trim to the empty string.
    rw [takeWhile_eq_self_of_all hall]
    cases hY : Y.length with
    | zero => exact absurd (List.eq_nil_of_length_eq_zero hY) hne
    | succ n =>
      have hstep : g2match (Y.drop (n + 1)) = none := by
        rw [List.drop_eq_nil_of_le (by omega)]; rfl
      rw [wsTryJ_succ, hstep]
      cases n with
      | zero =>
        exact ⟨Y, g2match_full hne hdot hp hb, rfl⟩
      | succ k =>
        have hlen : k + 1 < Y.length := by omega
        have hd : g2match (Y.drop (k + 1)) = some (Y.drop (k + 1)) :=
          g2match_full (drop_ne_nil_of_lt hlen)
            (fun c hc => hdot c (mem_of_mem_drop hc))
            (fun hm => hp (mem_of_mem_drop hm))
            (fun hm => hb (mem_of_mem_drop hm))
        rw [wsTryJ_succ, hd]
        refine ⟨Y.drop (k + 1), rfl, ?_⟩
        rw [jsTrimL_of_all_ws (fun c hc => hall c (mem_of_mem_drop hc)),
          jsTrimL_of_all_ws hall]
  · -- `Y` has a non-whitespace character: the greedy `\s*` consumes
    -- exactly the leading whitespace and the capture is the rest.
    have hlt : (Y.takeWhile isJsWs).length < Y.length :=
      takeWhile_length_lt hall
    have hdm : Y.drop (Y.takeWhile isJsWs).length = Y.dropWhile isJsWs :=
      drop_takeWhile_length isJsWs Y
    have hne' : Y.drop (Y.takeWhile isJsWs).length ≠ [] :=
      drop_ne_nil_of_lt hlt
    have hg : g2match (Y.drop (Y.takeWhile isJsWs).length) =
        some (Y.drop (Y.takeWhile isJsWs).length) :=
      g2match_full hne' (fun c hc => hdot c (mem_of_mem_drop hc))
        (fun hm => hp (mem_of_mem_drop hm))
        (fun hm => hb (mem_of_mem_drop hm))
    cases hm : (Y.takeWhile isJsWs).length with
    | zero =>
      refine ⟨Y, ?_, rfl⟩
      show g2match Y = some Y
      have := hg
      rw [hm] at this
      simpa using this
    | succ k =>
      rw [wsTryJ_succ]
      rw [hm] at hg hdm
      rw [hg]
      exact ⟨Y.drop (k + 1), rfl, by rw [hdm]; exact jsTrimL_dropWhile Y⟩

theorem sepTryK_succ (seps : Char → Bool) (t : List Char) (k : Nat) :
    sepTryK seps t (k + 1) =
      match sepAt seps t (k + 1) with
      | some g2 => some g2
      | none => sepTryK seps t k := rfl

theorem dashSeps_not_ws {c : Char} (h : dashSeps c = true) :
    isJsWs c = false := by
  rcases Bool.or_eq_true_iff.mp h with h1 | h1
  · rcases Bool.or_eq_true_iff.mp h1 with h2 | h2 <;>
      · have := of_decide_eq_true h2
        subst this
        decide
  · have := of_decide_eq_true h1
    subst this
    decide

theorem colonSeps_not_ws {c : Char} (h : colonSeps c = true) :
    isJsWs c = false := by
  have := of_decide_eq_true h
  subst this
  decide

theorem afterG1_hit (seps : Char → Bool) {w : List Char}
    (hw : ∀ c ∈ w, isJsWs c = true) {sep : Char} (hsep : seps sep = true)
    (hsepws : isJsWs sep = false) {Y : List Char} {g2 : List Char}
    (hsome : afterSep Y = some g2) :
    afterG1 seps (w ++ sep :: Y) = some g2 := by
  unfold afterG1
  obtain ⟨ht, hd⟩ := takeWhile_append_of_all hw hsepws Y
  rw [ht]
  have hAt : sepAt seps (w ++ sep :: Y) w.length = some g2 := by
    unfold sepAt
    rw [hd]
    simp only [hsep, if_true]
    exact hsome
  cases hwl : w.length with
  | zero =>
    show sepAt seps (w ++ sep :: Y) 0 = some g2
    rw [← hwl]
    exact hAt
  | succ k =>
    rw [sepTryK_succ, ← hwl, hAt]

theorem sepTryK_none (seps : Char → Bool) (t : List Char) (K : Nat)
    (h : ∀ k ≤ K, sepAt seps t k = none) : sepTryK seps t K = none := by
  induction K with
  | zero => exact h 0 (Nat.le_refl 0)
  | succ k ih =>
    rw [sepTryK_succ, h (k + 1) (Nat.le_refl _)]
    exact ih (fun j hj => h j (Nat.le_succ_of_le hj))

theorem afterG1_none (seps : Char → Bool) {xs : List Char}
    (hnd : ∀ c ∈ xs, seps c = false)
    (hnw : ¬ ∀ c ∈ xs, isJsWs c = true) (sep : Char) (Y : List Char) :
    afterG1 seps (xs ++ sep :: Y) = none := by
  unfold afterG1
  rw [takeWhile_append_left hnw (sep :: Y)]
  have hm : (xs.takeWhile isJsWs).length < xs.length :=
    takeWhile_length_lt hnw
  apply sepTryK_none
  intro k hk
  have hklt : k < xs.length := Nat.lt_of_le_of_lt hk hm
  unfold sepAt
  rw [drop_append_le (sep :: Y) (Nat.le_of_lt hklt)]
  cases hdk : xs.drop k with
  | nil => exact absurd hdk (drop_ne_nil_of_lt hklt)
  | cons c tail =>
    have hc : c ∈ xs := mem_of_mem_drop (by rw [hdk]; simp)
    simp [hnd c hc]

theorem g1go_spec (seps : Char → Bool) (X : List Char) :
    ∀ acc, X ≠ [] → (∀ c ∈ X, isJsDot c = true) →
      (∀ c ∈ X, seps c = false) →
      ∀ {sep : Char}, seps sep = true → isJsWs sep = false →
      ∀ {Y g2 : List Char}, afterSep Y = some g2 →
      ∃ e, 1 ≤ e ∧ e ≤ X.length ∧ (∀ c ∈ X.drop e, isJsWs c = true) ∧
        g1go seps acc (X ++ sep :: Y) = some (acc ++ X.take e, g2) := by
  induction X with
  | nil => intro acc hne _ _ _ _ _ _ _; exact absurd rfl hne
  | cons x xs ih =>
    intro acc _ hdot hsepfree sep hsep hsepws Y g2 hsome
    have hx : isJsDot x = true := hdot x (by simp)
    have hunf : g1go seps acc ((x :: xs) ++ sep :: Y) =
        if isJsDot x = true then
          (match afterG1 seps (xs ++ sep :: Y) with
           | some g2' => some (acc ++ [x], g2')
           | none => g1go seps (acc ++ [x]) (xs ++ sep :: Y))
        else none := rfl
    by_cases hws : ∀ c ∈ xs, isJsWs c = true
    · have hAf : afterG1 seps (xs ++ sep :: Y) = some g2 :=
        afterG1_hit seps hws hsep hsepws hsome
      refine ⟨1, Nat.le_refl 1, by simp, by simpa using hws, ?_⟩
      rw [hunf, if_pos hx, hAf]
      simp
    · have hxs_ne : xs ≠ [] := by
        rintro rfl
        exact hws (by intro c hc; cases hc)
      have hAf : afterG1 seps (xs ++ sep :: Y) = none :=
        afterG1_none seps (fun c hc => hsepfree c (by simp [hc])) hws sep Y
      obtain ⟨e', h1, h2, h3, h4⟩ :=
        ih (acc ++ [x]) hxs_ne (fun c hc => hdot c (by simp [hc]))
          (fun c hc => hsepfree c (by simp [hc])) hsep hsepws hsome
      refine ⟨e' + 1, by omega, by simpa using Nat.succ_le_succ h2,
        by simpa using h3, ?_⟩
      rw [hunf, if_pos hx, hAf, h4]
      simp

/-- C9: `extractTitleAndArtist` is total (it is a Lean function) with
a deterministic fallback.  (1) For a video title of the form `X-sep-Y`
with `sep` a hyphen / en dash / em dash, where `X` is nonempty,
contains no dash characters and no line terminators, and `Y` is
nonempty, contains no line terminators and no `(` or `[`, it returns
`artist = X.trim` and `title = Y.trim`.  (2) For every title matching
none of the three separator patterns, it returns artist
`"Unknown Artist"` and title equal to the input with the
`\s*\(.*\)|\s*\[.*\]` segments removed and the result trimmed. -/
theorem extractTitleAndArtist_spec :
    (∀ (X Y : List Char) (sep : Char),
        dashSeps sep = true → X ≠ [] →
        (∀ c ∈ X, isJsDot c = true) → (∀ c ∈ X, dashSeps c = false) →
        Y ≠ [] → (∀ c ∈ Y, isJsDot c = true) → '(' ∉ Y → '[' ∉ Y →
        extractTitleAndArtist (String.mk (X ++ sep :: Y)) =
          { title := String.mk (jsTrimL Y),
            artist := String.mk (jsTrimL X) }) ∧
    (∀ t : String,
        patMatch dashSeps t.data = none →
        patMatch colonSeps t.data = none →
        patMatchBy t.data = none →
        extractTitleAndArtist t =
          { title := String.mk
              (jsTrimL (replaceAllPB t.data.length t.data)),
            artist := "Unknown Artist" }) := by
  constructor
  · intro X Y sep hsep hXne hXdot hXdash hYne hYdot hYp hYb
    obtain ⟨g2, hg2, htrim⟩ := afterSep_spec Y hYne hYdot hYp hYb
    obtain ⟨e, he1, he2, he3, he4⟩ :=
      g1go_spec dashSeps X [] hXne hXdot hXdash hsep
        (dashSeps_not_ws hsep) hg2
    have hpm : patMatch dashSeps (String.mk (X ++ sep :: Y)).data =
        some (X.take e, g2) := by
      show g1go dashSeps [] (X ++ sep :: Y) = some (X.take e, g2)
      rw [he4]
      simp
    unfold extractTitleAndArtist
    rw [hpm]
    have hart : jsTrimL (X.take e) = jsTrimL X := by
      conv_rhs => rw [← List.take_append_drop e X]
      rw [jsTrimL_append_ws he3]
    simp only [htrim, hart]
  · intro t h1 h2 h3
    unfold extractTitleAndArtist
    rw [h1, h2, h3]

/-- Witness for C9 at concrete inputs: `"AC DC - Back In Black"`
splits at the dash, and `"Some Title (Live) [HD]"` (which matches no
separator pattern) falls back to segment-stripping with artist
`"Unknown Artist"`. -/
theorem extractTitleAndArtist_spec_witness :
    extractTitleAndArtist (String.mk ("AC DC".data ++ '-' :: " Back In Black".data)) =
      { title := String.mk (jsTrimL " Back In Black".data),
        artist := String.mk (jsTrimL "AC DC".data) } ∧
    extractTitleAndArtist "Some Title (Live) [HD]" =
      { title := String.mk
          (jsTrimL (replaceAllPB "Some Title (Live) [HD]".data.length
            "Some Title (Live) [HD]".data)),
        artist := "Unknown Artist" } :=
  ⟨extractTitleAndArtist_spec.1 "AC DC".data " Back In Black".data '-'
      (by decide) (by decide) (by decide) (by decide) (by decide)
      (by decide) (by decide) (by decide),
    extractTitleAndArtist_spec.2 "Some Title (Live) [HD]"
      (by decide) (by decide) (by decide)⟩

/-! ## Data model (src/types.ts)

The `Analysis` record is produced by `JSON.parse` on the model
response, so at runtime any field can be absent even when the
TypeScript type marks it required; the service code reads the fields
used below through optional chaining (`analysis.genreAnalysis?.…`,
`analysis.musicalElements?.…`).  All sub-records are therefore
modelled as `Option`. -/

structure SongInfo where
  title : String
  artist : String
  year : Int
  mainGenre : String
  subgenres : List String
deriving DecidableEq

structure MusicalElements where
  bpm : Int
  key : String
  mode : String
  timeSignature : String
  mood : List String
  tonality : String
  tempoDescription : String
deriving DecidableEq

/-- `Composition` in src/types.ts (renamed here: `Composition` is
taken by Mathlib). -/
structure CompositionData where
  formAnalysis : String
  transitionDetails : String
  harmony : String
  chordProgressions : List String
  harmonicDevices : List String
  melody : String
  melodicContour : String
  vocalTechnique : String
  rhythm : String
  rhythmicPatterns : String
  syncopationDetails : String
deriving DecidableEq

structure InstrumentationItem where
  instrument : String
  performanceAnalysis : String
deriving DecidableEq

structure SoundEngineering where
  instrumentation : List InstrumentationItem
  mixing : String
  dynamicRange : String
  panningDetails : String
  frequencyBalance : String
  mastering : String
  lufs : String
  stereoWidth : String
  soundstage : String
  effects : List String
deriving DecidableEq

structure LyricalAnalysis where
  theme : String
  narrativeStructure : String
  literaryDevices : List String
  rhymeScheme : String
deriving DecidableEq

structure CulturalContext where
  historicalSignificance : String
  influences : String
  impact : String
deriving DecidableEq

structure GenreAnalysis where
  primaryGenre : String
  subgenres : List String
  genreConfidence : Int
  crossGenreInfluences : List String
  genreEvolution : String
  regionalInfluences : List String
deriving DecidableEq

structure FlowAnalysis where
  overallFlow : String
  rhythmicComplexity : Int
  syncopationLevel : Int
  groovePattern : String
  rhythmicVariations : List String
  polyrhythmicElements : List String
deriving DecidableEq

/-- `trendingStatus` / `culturalImpact` are string unions in
TypeScript; they are modelled as plain strings. -/
structure PopularityMetrics where
  globalPopularity : Int
  regionalPopularity : String
  trendingStatus : String
  culturalImpact : String
  crossoverAppeal : Int
deriving DecidableEq

structure FrequencySpectrum where
  lowEnd : String
  midRange : String
  highEnd : String
deriving DecidableEq

structure TechnicalAnalysis where
  productionQuality : Int
  mixingTechniques : List String
  masteringApproach : String
  spatialDesign : String
  frequencySpectrum : FrequencySpectrum
  dynamicProcessing : List String
deriving DecidableEq

structure Analysis where
  error : Option String
  songInfo : Option SongInfo
  musicalElements : Option MusicalElements
  composition : Option CompositionData
  soundEngineering : Option SoundEngineering
  lyricalAnalysis : Option LyricalAnalysis
  culturalContext : Option CulturalContext
  genreAnalysis : Option GenreAnalysis
  flowAnalysis : Option FlowAnalysis
  popularityMetrics : Option PopularityMetrics
  technicalAnalysis : Option TechnicalAnalysis
deriving DecidableEq

structure GenrePercent where
  genre : String
  percentage : Int
deriving DecidableEq

structure PlaylistInfo where
  title : String
  totalTracks : Nat
  totalDuration : String
  curator : String
deriving DecidableEq

structure OverallAnalysis where
  dominantGenres : List GenrePercent
  averageBPM : Int
  moodProgression : String
  energyFlow : String
  cohesionScore : Int
deriving DecidableEq

/-- `genreDistribution` is a string-keyed JavaScript object; for the
non-numeric genre keys used here such an object preserves insertion
order, so it is modelled as an insertion-ordered association list. -/
structure PlaylistInsights where
  genreDistribution : List (String × Nat)
  temporalFlow : String
  emotionalJourney : String
  recommendedListeningContext : List String
deriving DecidableEq

structure PlaylistAnalysis where
  playlistInfo : PlaylistInfo
  overallAnalysis : OverallAnalysis
  trackAnalyses : List Analysis
  playlistInsights : PlaylistInsights
deriving DecidableEq

/-! ## YouTube service data (src/services/youtube.service.ts) -/

structure YouTubeThumbnail where
  url : String
  width : Nat
  height : Nat
deriving DecidableEq

structure YouTubeVideoData where
  id : String
  title : String
  channelTitle : String
  description : String
  duration : String
  viewCount : String
  likeCount : String
  publishedAt : String
  categoryId : String
  tags : List String
  defaultLanguage : Option String
  thumbnailsHigh : YouTubeThumbnail
deriving DecidableEq

structure YouTubePlaylistData where
  id : String
  title : String
  channelTitle : String
  description : String
  itemCount : Int
  videos : List YouTubeVideoData
deriving DecidableEq

/-! ## `analyzePlaylist` (src/services/geminiService.ts)

The per-track `analyzeMusic` calls and the playlist-data fetch are
external effects; they are passed in as oracles.  A thrown JavaScript
error is modelled as `Except.error` carrying its message.  The loop
body appends each visited video URL to an explicit call trace. -/

/-- `Math.round` (ties round up, also for the exact rationals that
arise as `integer / integer` here). -/
def jsRound (q : ℚ) : ℤ := ⌊q + 1 / 2⌋

/-- `genreDistribution[g] = (genreDistribution[g] || 0) + 1` on a
string-keyed object: update in place, or append a new key. -/
def bumpCount : List (String × Nat) → String → List (String × Nat)
  | [], g => [(g, 1)]
  | (k, n) :: t, g =>
    if k = g then (k, n + 1) :: t else (k, n) :: bumpCount t g

/-- Object property read `m[g]`. -/
def lookupCount (m : List (String × Nat)) (g : String) : Option Nat :=
  (m.find? (fun p => p.1 = g)).map (fun p => p.2)

/-- State of the accumulation loop in `analyzePlaylist`. -/
structure PlaylistLoopState where
  trackAnalyses : List Analysis
  genreDistribution : List (String × Nat)
  totalBPM : Int
  validBPMCount : Nat
deriving DecidableEq

def initLoopState : PlaylistLoopState := ⟨[], [], 0, 0⟩

/-- The URL handed to `analyzeMusic` for each playlist video. -/
def videoUrlOf (v : YouTubeVideoData) : String :=
  "https://www.youtube.com/watch?v=" ++ v.id

/-- Loop body on a successful analysis: push the analysis, count its
primary genre when `analysis.genreAnalysis?.primaryGenre` is truthy
(present and nonempty), and accumulate its BPM when
`analysis.musicalElements?.bpm` is truthy and `> 0` (equivalently,
present and `> 0`). -/
def collectTrack (st : PlaylistLoopState) (a : Analysis) : PlaylistLoopState :=
  { trackAnalyses := st.trackAnalyses ++ [a]
    genreDistribution :=
      match a.genreAnalysis with
      | some ga =>
        if ga.primaryGenre ≠ "" then
          bumpCount st.genreDistribution ga.primaryGenre
        else st.genreDistribution
      | none => st.genreDistribution
    totalBPM :=
      match a.musicalElements with
      | some me => if me.bpm > 0 then st.totalBPM + me.bpm else st.totalBPM
      | none => st.totalBPM
    validBPMCount :=
      match a.musicalElements with
      | some me => if me.bpm > 0 then st.validBPMCount + 1 else st.validBPMCount
      | none => st.validBPMCount }

/-- One loop iteration: one `analyzeMusic` call; a thrown error is
caught, logged, and the loop continues with the state unchanged. -/
def playlistStep (analyzeMusicO : String → Except String Analysis)
    (p : PlaylistLoopState × List String) (v : YouTubeVideoData) :
    PlaylistLoopState × List String :=
  match analyzeMusicO (videoUrlOf v) with
  | Except.ok a => (collectTrack p.1 a, p.2 ++ [videoUrlOf v])
  | Except.error _ => (p.1, p.2 ++ [videoUrlOf v])

/-- The `for` loop over `playlistData.videos`. -/
def runPlaylistLoop (analyzeMusicO : String → Except String Analysis)
    (videos : List YouTubeVideoData) : PlaylistLoopState × List String :=
  videos.foldl (playlistStep analyzeMusicO) (initLoopState, [])

/-- Stable descending insertion by an integer key: the unique result
of the stable `Array.prototype.sort` with comparator
`(a, b) => key(b) - key(a)`. -/
def insertDescBy {α : Type} (key : α → Int) (x : α) : List α → List α
  | [] => [x]
  | y :: t => if key y ≤ key x then x :: y :: t else y :: insertDescBy key x t

def sortDescBy {α : Type} (key : α → Int) : List α → List α
  | [] => []
  | x :: t => insertDescBy key x (sortDescBy key t)

/-- `dominantGenres`: entries of the distribution mapped to rounded
percentages of the analysed-track count, sorted by descending
percentage, first five. -/
def dominantGenresOf (dist : List (String × Nat)) (trackCount : Nat) :
    List GenrePercent :=
  (sortDescBy (fun gp => gp.percentage)
    (dist.map (fun p =>
      ({ genre := p.1,
         percentage := jsRound (((p.2 : ℚ) / (trackCount : ℚ)) * 100) }
       : GenrePercent)))).take 5

/-- `analyzeMoodProgression` (src/services/geminiService.ts). -/
def analyzeMoodProgression (analyses : List Analysis) : String :=
  if analyses.length = 0 then "Não foi possível determinar"
  else
    let moods := (analyses.map (fun a =>
      match a.musicalElements with
      | some m => m.mood
      | none => [])).flatten
    let moodCounts := moods.foldl bumpCount []
    let dominantMood :=
      match sortDescBy (fun p => (p.2 : Int)) moodCounts with
      | [] => "variado"
      | p :: _ => if p.1 = "" then "variado" else p.1
    "Progressão predominantemente " ++ dominantMood ++
      " com variações ao longo da playlist"

/-- The positive BPM values of the analyses, in order (the
`filter(bpm => bpm && bpm > 0)` of the source). -/
def positiveBpms (analyses : List Analysis) : List Int :=
  analyses.filterMap (fun a =>
    match a.musicalElements with
    | some m => if m.bpm > 0 then some m.bpm else none
    | none => none)

/-- `analyzeEnergyFlow` (src/services/geminiService.ts); the two
window averages are exact rationals. -/
def analyzeEnergyFlow (analyses : List Analysis) : String :=
  if analyses.length = 0 then "Não foi possível determinar"
  else
    let bpms := positiveBpms analyses
    if bpms.length < 2 then "Fluxo de energia estável"
    else
      let third := (bpms.length + 2) / 3
      let start := (((bpms.take third).foldl (· + ·) 0 : ℚ)) / (third : ℚ)
      let finish :=
        (((bpms.drop (bpms.length - third)).foldl (· + ·) 0 : ℚ)) / (third : ℚ)
      let difference := finish - start
      if difference > 10 then "Energia crescente ao longo da playlist"
      else if difference < -10 then
        "Energia decrescente, ideal para relaxamento"
      else "Energia equilibrada e consistente"

/-- `analyzeTemporalFlow`: `filter(Boolean)` drops absent and empty
descriptions; `[...new Set(x)]` keeps first occurrences. -/
def analyzeTemporalFlow (analyses : List Analysis) : String :=
  let tempos := analyses.filterMap (fun a =>
    match a.musicalElements with
    | some m => if m.tempoDescription ≠ "" then some m.tempoDescription else none
    | none => none)
  let uniqueTempos := tempos.eraseDups
  if uniqueTempos.length ≤ 2 then "Fluxo temporal consistente"
  else if uniqueTempos.length ≤ 4 then "Variação temporal moderada"
  else "Grande diversidade temporal"

/-- `analyzeEmotionalJourney`. -/
def analyzeEmotionalJourney (analyses : List Analysis) : String :=
  let themes := analyses.filterMap (fun a =>
    match a.lyricalAnalysis with
    | some la => if la.theme ≠ "" then some la.theme else none
    | none => none)
  let uniqueThemes := themes.eraseDups
  if uniqueThemes.length ≤ 2 then "Jornada emocional focada e coesa"
  else if uniqueThemes.length ≤ 4 then "Exploração emocional variada"
  else "Ampla gama de experiências emocionais"

/-- ASCII lowering (the genre names compared against are ASCII). -/
def jsToLower (s : String) : String := String.mk (s.data.map Char.toLower)

/-- `generateListeningRecommendations`.  With no analyses the average
BPM is `0/0 = NaN` in JavaScript and both comparisons are false, so
nothing is pushed in that case. -/
def generateListeningRecommendations (analyses : List Analysis)
    (dominantGenres : List GenrePercent) : List String :=
  let topGenre :=
    match dominantGenres with
    | g :: _ => jsToLower g.genre
    | [] => ""
  let recommendations :=
    if jsIncludes topGenre "rock" || jsIncludes topGenre "metal" then
      ["Treino intenso", "Dirigindo", "Concentração para trabalho"]
    else if jsIncludes topGenre "jazz" || jsIncludes topGenre "blues" then
      ["Jantar romântico", "Leitura", "Trabalho criativo"]
    else if jsIncludes topGenre "electronic" || jsIncludes topGenre "dance" then
      ["Festa", "Exercícios", "Limpeza da casa"]
    else if jsIncludes topGenre "classical" || jsIncludes topGenre "ambient" then
      ["Meditação", "Estudo", "Relaxamento"]
    else if jsIncludes topGenre "pop" then
      ["Viagem de carro", "Atividades sociais", "Background casual"]
    else []
  let recommendations :=
    if analyses.length = 0 then recommendations
    else
      let avgBPM :=
        ((analyses.map (fun a =>
          match a.musicalElements with
          | some m => m.bpm
          | none => 0)).foldl (· + ·) 0 : ℚ) / (analyses.length : ℚ)
      if avgBPM > 140 then recommendations ++ ["Exercícios de alta intensidade"]
      else if avgBPM < 80 then recommendations ++ ["Relaxamento noturno"]
      else recommendations
  recommendations.eraseDups.take 4

/-- External effects of `analyzePlaylist`. -/
structure PlaylistEnv where
  getPlaylistData : String → Nat → Option YouTubePlaylistData
  analyzeMusicO : String → Except String Analysis

/-- `analyzePlaylist` (src/services/geminiService.ts): id extraction,
playlist fetch, the per-track loop, then the aggregate metrics.
Returns the result (or thrown error) together with the trace of
`analyzeMusic` calls made. -/
def analyzePlaylist (env : PlaylistEnv) (playlistUrl : String)
    (maxTracks : Nat) : Except String PlaylistAnalysis × List String :=
  match YouTubeService.extractPlaylistId playlistUrl with
  | none =>
    (Except.error "Não foi possível extrair o ID da playlist da URL fornecida.",
      [])
  | some pid =>
    match env.getPlaylistData pid maxTracks with
    | none => (Except.error "Não foi possível obter dados da playlist.", [])
    | some pd =>
      let loopOut := runPlaylistLoop env.analyzeMusicO pd.videos
      let st := loopOut.1
      let averageBPM : Int :=
        if st.validBPMCount > 0 then
          jsRound ((st.totalBPM : ℚ) / (st.validBPMCount : ℚ))
        else 0
      let dominantGenres :=
        dominantGenresOf st.genreDistribution st.trackAnalyses.length
      let genreCount := st.genreDistribution.length
      let cohesionScore : Int := max 0 (100 - genreCount * 10)
      let totalDurationSeconds :=
        pd.videos.foldl (fun sum v => sum + parseDuration v.duration) 0
      let hours := totalDurationSeconds / 3600
      let minutes := (totalDurationSeconds % 3600) / 60
      let totalDuration :=
        if hours > 0 then toString hours ++ "h " ++ toString minutes ++ "m"
        else toString minutes ++ "m"
      (Except.ok
        { playlistInfo :=
            { title := pd.title
              totalTracks := st.trackAnalyses.length
              totalDuration := totalDuration
              curator := pd.channelTitle }
          overallAnalysis :=
            { dominantGenres := dominantGenres
              averageBPM := averageBPM
              moodProgression := analyzeMoodProgression st.trackAnalyses
              energyFlow := analyzeEnergyFlow st.trackAnalyses
              cohesionScore := cohesionScore }
          trackAnalyses := st.trackAnalyses
          playlistInsights :=
            { genreDistribution := st.genreDistribution
              temporalFlow := analyzeTemporalFlow st.trackAnalyses
              emotionalJourney := analyzeEmotionalJourney st.trackAnalyses
              recommendedListeningContext :=
                generateListeningRecommendations st.trackAnalyses
                  dominantGenres } },
        loopOut.2)

/-! Loop facts for `analyzePlaylist`. -/

/-- State-only version of the loop body. -/
def stepState (analyzeMusicO : String → Except String Analysis)
    (st : PlaylistLoopState) (v : YouTubeVideoData) : PlaylistLoopState :=
  match analyzeMusicO (videoUrlOf v) with
  | Except.ok a => collectTrack st a
  | Except.error _ => st

theorem runPlaylistLoop_eq (oracle : String → Except String Analysis) :
    ∀ (videos : List YouTubeVideoData) (st : PlaylistLoopState)
      (log : List String),
      videos.foldl (playlistStep oracle) (st, log) =
        (videos.foldl (stepState oracle) st, log ++ videos.map videoUrlOf) := by
  intro videos
  induction videos with
  | nil => intro st log; simp
  | cons v vs ih =>
    intro st log
    have hstep : playlistStep oracle (st, log) v =
        (stepState oracle st v, log ++ [videoUrlOf v]) := by
      unfold playlistStep stepState
      cases oracle (videoUrlOf v) <;> rfl
    simp only [List.foldl_cons, hstep, ih, List.map_cons]
    simp

/-- Successful analyses of a list of videos, in order. -/
def successesOf (oracle : String → Except String Analysis)
    (videos : List YouTubeVideoData) : List Analysis :=
  videos.filterMap (fun v => (oracle (videoUrlOf v)).toOption)

theorem foldl_stepState_eq (oracle : String → Except String Analysis) :
    ∀ (videos : List YouTubeVideoData) (st : PlaylistLoopState),
      videos.foldl (stepState oracle) st =
        (successesOf oracle videos).foldl collectTrack st := by
  intro videos
  induction videos with
  | nil => intro st; rfl
  | cons v vs ih =>
    intro st
    simp only [List.foldl_cons, successesOf, List.filterMap_cons]
    cases ho : oracle (videoUrlOf v) with
    | ok a =>
      simp only [stepState, ho, Except.toOption, List.foldl_cons]
      exact ih (collectTrack st a)
    | error e =>
      simp only [stepState, ho, Except.toOption]
      exact ih st

theorem collect_foldl_trackAnalyses :
    ∀ (tas : List Analysis) (st : PlaylistLoopState),
      (tas.foldl collectTrack st).trackAnalyses = st.trackAnalyses ++ tas := by
  intro tas
  induction tas with
  | nil => intro st; simp
  | cons a as ih =>
    intro st
    simp only [List.foldl_cons, ih, collectTrack]
    simp

/-- C2: `analyzePlaylist` processes the playlist videos strictly
sequentially, in playlist order, calling `analyzeMusic` exactly once
per video with no retries (the call trace is exactly the video URLs
in order); the returned `trackAnalyses` are exactly the successful
analyses in order, so a failing video appears in none of them; a
failing video leaves the whole accumulated loop state (trackAnalyses,
genreDistribution and the BPM totals) exactly as if the video were
absent; and the playlist call itself succeeds regardless of
individual failures. -/
theorem analyzePlaylist_sequential_spec :
    (∀ (env : PlaylistEnv) (url : String) (maxTracks : Nat)
        (pid : String) (pd : YouTubePlaylistData),
      YouTubeService.extractPlaylistId url = some pid →
      env.getPlaylistData pid maxTracks = some pd →
      (analyzePlaylist env url maxTracks).2 = pd.videos.map videoUrlOf ∧
      ∃ r, (analyzePlaylist env url maxTracks).1 = Except.ok r ∧
        r.trackAnalyses = successesOf env.analyzeMusicO pd.videos) ∧
    (∀ (oracle : String → Except String Analysis)
        (pre post : List YouTubeVideoData) (v : YouTubeVideoData)
        (e : String),
      oracle (videoUrlOf v) = Except.error e →
      (runPlaylistLoop oracle (pre ++ v :: post)).1 =
        (runPlaylistLoop oracle (pre ++ post)).1) := by
  constructor
  · intro env url maxTracks pid pd hpid hpd
    have hloop := runPlaylistLoop_eq env.analyzeMusicO pd.videos initLoopState []
    have hta :
        (runPlaylistLoop env.analyzeMusicO pd.videos).1.trackAnalyses =
          successesOf env.analyzeMusicO pd.videos := by
      unfold runPlaylistLoop
      rw [hloop]
      show (pd.videos.foldl (stepState env.analyzeMusicO) initLoopState).trackAnalyses = _
      rw [foldl_stepState_eq, collect_foldl_trackAnalyses]
      rfl
    constructor
    · simp only [analyzePlaylist, hpid, hpd]
      show (runPlaylistLoop env.analyzeMusicO pd.videos).2 = _
      unfold runPlaylistLoop
      rw [hloop]
      simp
    · cases hres : (analyzePlaylist env url maxTracks).1 with
      | error e =>
        simp only [analyzePlaylist, hpid, hpd] at hres
        cases hres
      | ok r =>
        refine ⟨r, rfl, ?_⟩
        simp only [analyzePlaylist, hpid, hpd] at hres
        injection hres with h
        rw [← h]
        exact hta
  · intro oracle pre post v e herr
    unfold runPlaylistLoop
    have h1 := runPlaylistLoop_eq oracle (pre ++ v :: post) initLoopState []
    have h2 := runPlaylistLoop_eq oracle (pre ++ post) initLoopState []
    rw [h1, h2]
    show (pre ++ v :: post).foldl (stepState oracle) initLoopState =
      (pre ++ post).foldl (stepState oracle) initLoopState
    rw [List.foldl_append, List.foldl_append, List.foldl_cons]
    have : stepState oracle (pre.foldl (stepState oracle) initLoopState) v =
        pre.foldl (stepState oracle) initLoopState := by
      unfold stepState
      rw [herr]
    rw [this]

/-- Witness for C2: a two-video playlist whose first video fails to
analyse; both videos are called exactly once and removing the failing
video leaves the loop state unchanged. -/
theorem analyzePlaylist_sequential_spec_witness :
    (analyzePlaylist
        { getPlaylistData := fun _ _ =>
            some { id := "PL1", title := "p", channelTitle := "ch",
                   description := "", itemCount := 2,
                   videos := [
                     { id := "v1", title := "t1", channelTitle := "c",
                       description := "", duration := "PT1M",
                       viewCount := "1", likeCount := "1",
                       publishedAt := "", categoryId := "10", tags := [],
                       defaultLanguage := none,
                       thumbnailsHigh := { url := "", width := 0, height := 0 } },
                     { id := "v2", title := "t2", channelTitle := "c",
                       description := "", duration := "PT2M",
                       viewCount := "1", likeCount := "1",
                       publishedAt := "", categoryId := "10", tags := [],
                       defaultLanguage := none,
                       thumbnailsHigh := { url := "", width := 0, height := 0 } }] }
          analyzeMusicO := fun _ => Except.error "boom" }
        "https://www.youtube.com/playlist?list=PL1" 10).2 =
      ["https://www.youtube.com/watch?v=v1",
        "https://www.youtube.com/watch?v=v2"] :=
  ((analyzePlaylist_sequential_spec.1
      { getPlaylistData := fun _ _ =>
          some { id := "PL1", title := "p", channelTitle := "ch",
                 description := "", itemCount := 2,
                 videos := [
                   { id := "v1", title := "t1", channelTitle := "c",
                     description := "", duration := "PT1M",
                     viewCount := "1", likeCount := "1",
                     publishedAt := "", categoryId := "10", tags := [],
                     defaultLanguage := none,
                     thumbnailsHigh := { url := "", width := 0, height := 0 } },
                   { id := "v2", title := "t2", channelTitle := "c",
                     description := "", duration := "PT2M",
                     viewCount := "1", likeCount := "1",
                     publishedAt := "", categoryId := "10", tags := [],
                     defaultLanguage := none,
                     thumbnailsHigh := { url := "", width := 0, height := 0 } }] }
        analyzeMusicO := fun _ => Except.error "boom" }
      "https://www.youtube.com/playlist?list=PL1" 10 "PL1" _
      (by decide) rfl).1).trans (by decide)

/-! Aggregation facts for C1. -/

/-- Effect of one analysed track on the genre distribution. -/
def distStep (d : List (String × Nat)) (a : Analysis) : List (String × Nat) :=
  match a.genreAnalysis with
  | some ga =>
    if ga.primaryGenre ≠ "" then bumpCount d ga.primaryGenre else d
  | none => d

/-- Number of analyses whose primary genre is `g`. -/
def countGenre (tas : List Analysis) (g : String) : Nat :=
  tas.countP (fun a =>
    match a.genreAnalysis with
    | some ga => decide (ga.primaryGenre = g)
    | none => false)

theorem collect_foldl_genreDistribution :
    ∀ (tas : List Analysis) (st : PlaylistLoopState),
      (tas.foldl collectTrack st).genreDistribution =
        tas.foldl distStep st.genreDistribution := by
  intro tas
  induction tas with
  | nil => intro st; rfl
  | cons a as ih =>
    intro st
    simp only [List.foldl_cons, ih]
    rfl

theorem collect_foldl_bpm :
    ∀ (tas : List Analysis) (st : PlaylistLoopState),
      (tas.foldl collectTrack st).totalBPM =
          st.totalBPM + (positiveBpms tas).sum ∧
        (tas.foldl collectTrack st).validBPMCount =
          st.validBPMCount + (positiveBpms tas).length := by
  intro tas
  induction tas with
  | nil => intro st; simp [positiveBpms]
  | cons a as ih =>
    intro st
    simp only [List.foldl_cons]
    obtain ⟨ih1, ih2⟩ := ih (collectTrack st a)
    cases hme : a.musicalElements with
    | none =>
      have h1 : (collectTrack st a).totalBPM = st.totalBPM := by
        simp [collectTrack, hme]
      have h2 : (collectTrack st a).validBPMCount = st.validBPMCount := by
        simp [collectTrack, hme]
      have hpb : positiveBpms (a :: as) = positiveBpms as := by
        simp [positiveBpms, hme]
      rw [ih1, ih2, h1, h2, hpb]
      exact ⟨rfl, rfl⟩
    | some me =>
      by_cases hpos : me.bpm > 0
      · have h1 : (collectTrack st a).totalBPM = st.totalBPM + me.bpm := by
          simp [collectTrack, hme, hpos]
        have h2 : (collectTrack st a).validBPMCount = st.validBPMCount + 1 := by
          simp [collectTrack, hme, hpos]
        have hpb : positiveBpms (a :: as) = me.bpm :: positiveBpms as := by
          simp [positiveBpms, hme, hpos]
        rw [ih1, ih2, h1, h2, hpb]
        constructor
        · rw [List.sum_cons]; ring
        · rw [List.length_cons]; omega
      · have h1 : (collectTrack st a).totalBPM = st.totalBPM := by
          simp [collectTrack, hme, hpos]
        have h2 : (collectTrack st a).validBPMCount = st.validBPMCount := by
          simp [collectTrack, hme, hpos]
        have hpb : positiveBpms (a :: as) = positiveBpms as := by
          simp [positiveBpms, hme, hpos]
        rw [ih1, ih2, h1, h2, hpb]
        exact ⟨rfl, rfl⟩

theorem bumpCount_lookup_same (m : List (String × Nat)) (g : String) :
    lookupCount (bumpCount m g) g =
      some ((lookupCount m g).getD 0 + 1) := by
  induction m with
  | nil => simp [bumpCount, lookupCount, List.find?]
  | cons p t ih =>
    obtain ⟨k, n⟩ := p
    by_cases hk : k = g
    · subst hk
      simp [bumpCount, lookupCount, List.find?]
    · simp only [bumpCount, if_neg hk]
      simp only [lookupCount, List.find?] at ih ⊢
      simp only [hk, decide_eq_true_eq, if_neg hk]
      simpa [hk] using ih

theorem bumpCount_lookup_other (m : List (String × Nat)) {g g' : String}
    (h : g' ≠ g) :
    lookupCount (bumpCount m g) g' = lookupCount m g' := by
  induction m with
  | nil => simp [bumpCount, lookupCount, List.find?, Ne.symm h]
  | cons p t ih =>
    obtain ⟨k, n⟩ := p
    by_cases hk : k = g
    · subst hk
      have hkg : ¬ (k = g') := by
        intro hx
        exact h (hx.symm.trans (by rfl))
      simp [bumpCount, lookupCount, List.find?, hkg]
    · by_cases hk' : k = g'
      · subst hk'
        simp [bumpCount, lookupCount, List.find?, hk]
      · simp only [bumpCount, if_neg hk]
        simp only [lookupCount, List.find?] at ih ⊢
        simpa [hk'] using ih

theorem foldl_distStep_lookup {g : String} (hg : g ≠ "") :
    ∀ (tas : List Analysis) (d0 : List (String × Nat)),
      lookupCount (tas.foldl distStep d0) g =
        (if countGenre tas g = 0 then lookupCount d0 g
         else some ((lookupCount d0 g).getD 0 + countGenre tas g)) := by
  intro tas
  induction tas with
  | nil => intro d0; simp [countGenre]
  | cons a as ih =>
    intro d0
    simp only [List.foldl_cons]
    cases hga : a.genreAnalysis with
    | none =>
      have hds : distStep d0 a = d0 := by simp [distStep, hga]
      have hcnt : countGenre (a :: as) g = countGenre as g := by
        simp [countGenre, List.countP_cons, hga]
      rw [hds, ih d0, hcnt]
    | some ga =>
      by_cases hpg : ga.primaryGenre = ""
      · have hds : distStep d0 a = d0 := by simp [distStep, hga, hpg]
        have hcnt : countGenre (a :: as) g = countGenre as g := by
          simp [countGenre, List.countP_cons, hga, hpg, Ne.symm hg]
        rw [hds, ih d0, hcnt]
      · have hds : distStep d0 a = bumpCount d0 ga.primaryGenre := by
          simp [distStep, hga, hpg]
        by_cases hpgg : ga.primaryGenre = g
        · subst hpgg
          have hcnt : countGenre (a :: as) ga.primaryGenre =
              countGenre as ga.primaryGenre + 1 := by
            simp [countGenre, List.countP_cons, hga]
          rw [hds, ih (bumpCount d0 ga.primaryGenre), hcnt,
            bumpCount_lookup_same]
          by_cases hc : countGenre as ga.primaryGenre = 0
          · simp [hc]
          · have hne : ¬ (countGenre as ga.primaryGenre + 1 = 0) := by omega
            simp only [if_neg hc, if_neg hne]
            congr 1
            simp only [Option.getD_some]
            omega
        · have hcnt : countGenre (a :: as) g = countGenre as g := by
            simp [countGenre, List.countP_cons, hga, hpgg]
          rw [hds, ih (bumpCount d0 ga.primaryGenre), hcnt,
            bumpCount_lookup_other d0 (fun hx => hpgg hx.symm)]

theorem foldl_distStep_lookup_empty :
    ∀ (tas : List Analysis) (d0 : List (String × Nat)),
      lookupCount (tas.foldl distStep d0) "" = lookupCount d0 "" := by
  intro tas
  induction tas with
  | nil => intro d0; rfl
  | cons a as ih =>
    intro d0
    simp only [List.foldl_cons]
    cases hga : a.genreAnalysis with
    | none => rw [show distStep d0 a = d0 by simp [distStep, hga], ih]
    | some ga =>
      by_cases hpg : ga.primaryGenre = ""
      · rw [show distStep d0 a = d0 by simp [distStep, hga, hpg], ih]
      · rw [show distStep d0 a = bumpCount d0 ga.primaryGenre by
          simp [distStep, hga, hpg], ih]
        exact bumpCount_lookup_other d0 (fun hx => hpg hx.symm)

theorem bumpCount_keys_cases (m : List (String × Nat)) (g : String) :
    (bumpCount m g).map Prod.fst = m.map Prod.fst ∨
      ((bumpCount m g).map Prod.fst = m.map Prod.fst ++ [g] ∧
        g ∉ m.map Prod.fst) := by
  induction m with
  | nil => right; simp [bumpCount]
  | cons p t ih =>
    obtain ⟨k, n⟩ := p
    by_cases hk : k = g
    · left; subst hk; simp [bumpCount]
    · rcases ih with h | ⟨h1, h2⟩
      · left; simp [bumpCount, hk, h]
      · right
        constructor
        · simp [bumpCount, hk, h1]
        · simp only [List.map_cons, List.mem_cons]
          rintro (h | h)
          · exact hk h.symm
          · exact h2 h

theorem distStep_keys_nodup {d : List (String × Nat)} (a : Analysis)
    (h : (d.map Prod.fst).Nodup) : ((distStep d a).map Prod.fst).Nodup := by
  unfold distStep
  cases hga : a.genreAnalysis with
  | none => exact h
  | some ga =>
    by_cases hpg : ga.primaryGenre = ""
    · simp [hpg]; exact h
    · simp only [hpg, ne_eq, not_false_iff, if_pos]
      rcases bumpCount_keys_cases d ga.primaryGenre with hc | ⟨hc, hng⟩
      · rw [hc]; exact h
      · rw [hc]
        rw [List.nodup_append]
        exact ⟨h, List.nodup_singleton _, by simpa using hng⟩

theorem foldl_distStep_keys_nodup :
    ∀ (tas : List Analysis) (d0 : List (String × Nat)),
      (d0.map Prod.fst).Nodup →
      ((tas.foldl distStep d0).map Prod.fst).Nodup := by
  intro tas
  induction tas with
  | nil => intro d0 h; exact h
  | cons a as ih =>
    intro d0 h
    simp only [List.foldl_cons]
    exact ih (distStep d0 a) (distStep_keys_nodup a h)

theorem lookup_of_mem_nodup :
    ∀ (m : List (String × Nat)), (m.map Prod.fst).Nodup →
      ∀ {g : String} {c : Nat}, (g, c) ∈ m → lookupCount m g = some c := by
  intro m
  induction m with
  | nil => intro _ g c hm; cases hm
  | cons p t ih =>
    intro hnd g c hm
    obtain ⟨k, n⟩ := p
    rcases List.mem_cons.mp hm with heq | hmem
    · obtain ⟨hgk, hcn⟩ := Prod.mk.injEq .. ▸ heq
      injection heq with h1 h2
      subst h1; subst h2
      simp [lookupCount, List.find?]
    · by_cases hk : k = g
      · exfalso
        subst hk
        have : k ∈ t.map Prod.fst :=
          List.mem_map.mpr ⟨(k, c), hmem, rfl⟩
        simp only [List.map_cons, List.nodup_cons] at hnd
        exact hnd.1 this
      · have hrest := ih (by
          simp only [List.map_cons, List.nodup_cons] at hnd
          exact hnd.2) hmem
        simp only [lookupCount, List.find?] at hrest ⊢
        simpa [hk] using hrest

theorem mem_insertDescBy {α : Type} (key : α → Int) (x : α) :
    ∀ (l : List α) (a : α), a ∈ insertDescBy key x l ↔ a = x ∨ a ∈ l := by
  intro l
  induction l with
  | nil => intro a; simp [insertDescBy]
  | cons y t ih =>
    intro a
    by_cases h : key y ≤ key x
    · simp [insertDescBy, h]
    · simp only [insertDescBy, if_neg h, List.mem_cons, ih]
      tauto

theorem sorted_insertDescBy {α : Type} (key : α → Int) (x : α) :
    ∀ (l : List α), List.Sorted (fun a b => key b ≤ key a) l →
      List.Sorted (fun a b => key b ≤ key a) (insertDescBy key x l) := by
  intro l
  induction l with
  | nil => intro _; simp [insertDescBy]
  | cons y t ih =>
    intro hs
    rw [List.sorted_cons] at hs
    obtain ⟨hy, ht⟩ := hs
    by_cases h : key y ≤ key x
    · simp only [insertDescBy, if_pos h]
      rw [List.sorted_cons]
      refine ⟨?_, ?_⟩
      · intro b hb
        rcases List.mem_cons.mp hb with rfl | hb
        · exact h
        · exact le_trans (hy b hb) h
      · rw [List.sorted_cons]
        exact ⟨hy, ht⟩
    · simp only [insertDescBy, if_neg h]
      rw [List.sorted_cons]
      refine ⟨?_, ih ht⟩
      intro b hb
      rcases (mem_insertDescBy key x t b).mp hb with rfl | hb
      · exact le_of_lt (lt_of_not_le h)
      · exact hy b hb

theorem sorted_sortDescBy {α : Type} (key : α → Int) :
    ∀ (l : List α), List.Sorted (fun a b => key b ≤ key a) (sortDescBy key l) := by
  intro l
  induction l with
  | nil => simp [sortDescBy]
  | cons x t ih => exact sorted_insertDescBy key x _ ih

theorem mem_sortDescBy {α : Type} (key : α → Int) :
    ∀ (l : List α) (a : α), a ∈ sortDescBy key l ↔ a ∈ l := by
  intro l
  induction l with
  | nil => intro a; simp [sortDescBy]
  | cons x t ih =>
    intro a
    simp only [sortDescBy, mem_insertDescBy, ih, List.mem_cons]

theorem successesOf_length (oracle : String → Except String Analysis) :
    ∀ (videos : List YouTubeVideoData),
      (∀ v ∈ videos, ∃ a, oracle (videoUrlOf v) = Except.ok a) →
      (successesOf oracle videos).length = videos.length := by
  intro videos
  induction videos with
  | nil => intro _; rfl
  | cons v vs ih =>
    intro h
    obtain ⟨a, ha⟩ := h v (by simp)
    have h2 := ih (fun w hw => h w (by simp [hw]))
    simp only [successesOf, List.filterMap_cons, ha, Except.toOption,
      List.length_cons] at h2 ⊢
    omega

/-- C1 (amended): for every playlist whose per-track analyses all
succeed, with `n ≥ 1` tracks, `analyzePlaylist` returns aggregates
computed by simple merging: `genreDistribution` maps each occurring
*nonempty* `primaryGenre` to the count of successful tracks having it
(a track whose `genreAnalysis` is absent, or whose `primaryGenre` is
the empty string, contributes no entry — the empty string is never a
key); `averageBPM` is the rounded arithmetic mean of the successful
tracks' `bpm` values that are `> 0` (and 0 when there are none);
`dominantGenres` is a list of at most 5 entries sorted by
non-increasing percentage, where each entry's percentage is
`round(100 * count / n)`; and
`cohesionScore = max(0, 100 - 10 * #distinct genres)`. -/
theorem analyzePlaylist_aggregate_spec :
    ∀ (env : PlaylistEnv) (url : String) (maxTracks : Nat)
      (pid : String) (pd : YouTubePlaylistData),
      YouTubeService.extractPlaylistId url = some pid →
      env.getPlaylistData pid maxTracks = some pd →
      pd.videos ≠ [] →
      (∀ v ∈ pd.videos, ∃ a, env.analyzeMusicO (videoUrlOf v) = Except.ok a) →
      ∃ r, (analyzePlaylist env url maxTracks).1 = Except.ok r ∧
        r.trackAnalyses.length = pd.videos.length ∧
        (∀ g : String, g ≠ "" →
          lookupCount r.playlistInsights.genreDistribution g =
            (if countGenre r.trackAnalyses g = 0 then none
             else some (countGenre r.trackAnalyses g))) ∧
        lookupCount r.playlistInsights.genreDistribution "" = none ∧
        r.overallAnalysis.averageBPM =
          (if (positiveBpms r.trackAnalyses).length = 0 then 0
           else jsRound (((positiveBpms r.trackAnalyses).sum : ℚ) /
             ((positiveBpms r.trackAnalyses).length : ℚ))) ∧
        r.overallAnalysis.dominantGenres.length ≤ 5 ∧
        List.Sorted (fun a b => b ≤ a)
          (r.overallAnalysis.dominantGenres.map (fun gp => gp.percentage)) ∧
        (∀ gp ∈ r.overallAnalysis.dominantGenres, ∃ c,
          lookupCount r.playlistInsights.genreDistribution gp.genre = some c ∧
          gp.percentage =
            jsRound (((c : ℚ) / (r.trackAnalyses.length : ℚ)) * 100)) ∧
        (r.playlistInsights.genreDistribution.map Prod.fst).Nodup ∧
        r.overallAnalysis.cohesionScore =
          max 0 (100 - 10 * (r.playlistInsights.genreDistribution.length : Int)) := by
  intro env url maxTracks pid pd hpid hpd hne hok
  have hloop := runPlaylistLoop_eq env.analyzeMusicO pd.videos initLoopState []
  have hst : (runPlaylistLoop env.analyzeMusicO pd.videos).1 =
      (successesOf env.analyzeMusicO pd.videos).foldl collectTrack
        initLoopState := by
    unfold runPlaylistLoop
    rw [hloop]
    show pd.videos.foldl (stepState env.analyzeMusicO) initLoopState = _
    rw [foldl_stepState_eq]
  have hTA : (runPlaylistLoop env.analyzeMusicO pd.videos).1.trackAnalyses =
      successesOf env.analyzeMusicO pd.videos := by
    rw [hst, collect_foldl_trackAnalyses]
    rfl
  have hdist :
      (runPlaylistLoop env.analyzeMusicO pd.videos).1.genreDistribution =
        (successesOf env.analyzeMusicO pd.videos).foldl distStep [] := by
    rw [hst, collect_foldl_genreDistribution]
    rfl
  obtain ⟨hbpm1, hbpm2⟩ :=
    collect_foldl_bpm (successesOf env.analyzeMusicO pd.videos) initLoopState
  have htot : (runPlaylistLoop env.analyzeMusicO pd.videos).1.totalBPM =
      (positiveBpms (successesOf env.analyzeMusicO pd.videos)).sum := by
    rw [hst, hbpm1]
    show (0 : Int) + _ = _
    ring
  have hcnt : (runPlaylistLoop env.analyzeMusicO pd.videos).1.validBPMCount =
      (positiveBpms (successesOf env.analyzeMusicO pd.videos)).length := by
    rw [hst, hbpm2]
    show 0 + _ = _
    omega
  have hnodup :
      (((successesOf env.analyzeMusicO pd.videos).foldl distStep []).map
        Prod.fst).Nodup :=
    foldl_distStep_keys_nodup _ [] (by simp)
  cases hres : (analyzePlaylist env url maxTracks).1 with
  | error e =>
    simp only [analyzePlaylist, hpid, hpd] at hres
    cases hres
  | ok r =>
    refine ⟨r, rfl, ?_⟩
    simp only [analyzePlaylist, hpid, hpd] at hres
    injection hres with h
    rw [← h]
    refine ⟨?_, ?_, ?_, ?_, ?_, ?_, ?_, ?_, ?_⟩
    · -- n tracks analysed
      show (runPlaylistLoop env.analyzeMusicO pd.videos).1.trackAnalyses.length = _
      rw [hTA]
      exact successesOf_length env.analyzeMusicO pd.videos hok
    · -- genre distribution lookup for nonempty genres
      intro g hg
      show lookupCount
        (runPlaylistLoop env.analyzeMusicO pd.videos).1.genreDistribution g = _
      rw [hdist, hTA, foldl_distStep_lookup hg]
      by_cases hc : countGenre (successesOf env.analyzeMusicO pd.videos) g = 0
      · simp [hc, lookupCount]
      · simp [hc, lookupCount]
    · -- the empty string is never a key
      show lookupCount
        (runPlaylistLoop env.analyzeMusicO pd.videos).1.genreDistribution "" = _
      rw [hdist, foldl_distStep_lookup_empty]
      rfl
    · -- average BPM
      show (if (runPlaylistLoop env.analyzeMusicO pd.videos).1.validBPMCount > 0
          then jsRound
            (((runPlaylistLoop env.analyzeMusicO pd.videos).1.totalBPM : ℚ) /
              ((runPlaylistLoop env.analyzeMusicO pd.videos).1.validBPMCount : ℚ))
          else 0) = _
      rw [htot, hcnt, hTA]
      by_cases hz :
          (positiveBpms (successesOf env.analyzeMusicO pd.videos)).length = 0
      · simp [hz]
      · have hpos :
            (positiveBpms (successesOf env.analyzeMusicO pd.videos)).length > 0 := by
          omega
        simp [hz, hpos]
    · -- at most five dominant genres
      show (dominantGenresOf
        (runPlaylistLoop env.analyzeMusicO pd.videos).1.genreDistribution
        (runPlaylistLoop env.analyzeMusicO pd.videos).1.trackAnalyses.length).length ≤ 5
      unfold dominantGenresOf
      exact List.length_take_le 5 _
    · -- sorted by non-increasing percentage
      show List.Sorted (fun a b => b ≤ a)
        ((dominantGenresOf
          (runPlaylistLoop env.analyzeMusicO pd.videos).1.genreDistribution
          (runPlaylistLoop env.analyzeMusicO pd.videos).1.trackAnalyses.length).map
            (fun gp => gp.percentage))
      unfold dominantGenresOf
      apply List.pairwise_map.mpr
      exact List.Pairwise.sublist (List.take_sublist 5 _)
        (sorted_sortDescBy (fun gp : GenrePercent => gp.percentage) _)
    · -- percentages of the dominant-genre entries
      intro gp hgp
      have hgp1 := List.mem_of_mem_take hgp
      have hgp2 := (mem_sortDescBy (fun gp : GenrePercent => gp.percentage)
        _ gp).mp hgp1
      obtain ⟨p, hpmem, hpeq⟩ := List.mem_map.mp hgp2
      refine ⟨p.2, ?_, ?_⟩
      · have hlk := lookup_of_mem_nodup
          ((runPlaylistLoop env.analyzeMusicO pd.videos).1.genreDistribution)
          (by rw [hdist]; exact hnodup)
          (show (p.1, p.2) ∈
              (runPlaylistLoop env.analyzeMusicO pd.videos).1.genreDistribution
            from by simpa using hpmem)
        rw [← hpeq]
        exact hlk
      · rw [← hpeq]
    · -- distinct keys
      show ((runPlaylistLoop env.analyzeMusicO pd.videos).1.genreDistribution.map
        Prod.fst).Nodup
      rw [hdist]
      exact hnodup
    · -- cohesion score
      show (max 0 (100 -
        ((runPlaylistLoop env.analyzeMusicO pd.videos).1.genreDistribution.length : Int) * 10)) = _
      congr 1
      ring

/-- A playlist video used in the C1 concrete runs. -/
def c1Video : YouTubeVideoData :=
  { id := "v1", title := "t", channelTitle := "c", description := "",
    duration := "PT1M", viewCount := "0", likeCount := "0",
    publishedAt := "", categoryId := "10", tags := [],
    defaultLanguage := none,
    thumbnailsHigh := { url := "", width := 0, height := 0 } }

/-- A one-video playlist used in the C1 concrete runs. -/
def c1Pd : YouTubePlaylistData :=
  { id := "PL", title := "p", channelTitle := "c", description := "",
    itemCount := 1, videos := [c1Video] }

/-- A successful analysis whose `primaryGenre` is the empty string. -/
def c1EmptyGenreAnalysis : Analysis :=
  { error := none, songInfo := none, musicalElements := none,
    composition := none, soundEngineering := none,
    lyricalAnalysis := none, culturalContext := none,
    genreAnalysis := some
      { primaryGenre := "", subgenres := [], genreConfidence := 90,
        crossGenreInfluences := [], genreEvolution := "",
        regionalInfluences := [] },
    flowAnalysis := none, popularityMetrics := none,
    technicalAnalysis := none }

/-- A successful analysis with primary genre `"Rock"` and BPM 120. -/
def c1RockAnalysis : Analysis :=
  { error := none, songInfo := none,
    musicalElements := some
      { bpm := 120, key := "C", mode := "Ionian", timeSignature := "4/4",
        mood := [], tonality := "Tonal", tempoDescription := "Allegro" },
    composition := none, soundEngineering := none,
    lyricalAnalysis := none, culturalContext := none,
    genreAnalysis := some
      { primaryGenre := "Rock", subgenres := [], genreConfidence := 90,
        crossGenreInfluences := [], genreEvolution := "",
        regionalInfluences := [] },
    flowAnalysis := none, popularityMetrics := none,
    technicalAnalysis := none }

def c1EmptyGenreEnv : PlaylistEnv :=
  { getPlaylistData := fun _ _ => some c1Pd,
    analyzeMusicO := fun _ => Except.ok c1EmptyGenreAnalysis }

def c1RockEnv : PlaylistEnv :=
  { getPlaylistData := fun _ _ => some c1Pd,
    analyzeMusicO := fun _ => Except.ok c1RockAnalysis }

/-- Counterexample to C1 as stated: a playlist of one track whose
analysis succeeds with `primaryGenre = ""`.  The empty string is an
occurring primary genre of a successful track (count 1), yet
`genreDistribution` has no entry for it — the JavaScript truthiness
test `analysis.genreAnalysis?.primaryGenre` skips empty-string
genres. -/
theorem analyzePlaylist_genre_counterexample :
    ((analyzePlaylist c1EmptyGenreEnv "?list=PL" 10).1.toOption.map
      (fun r =>
        (r.trackAnalyses.length, countGenre r.trackAnalyses "",
          lookupCount r.playlistInsights.genreDistribution ""))) =
      some (1, 1, none) := by decide

/-- Witness for the amended C1 at a concrete one-track playlist whose
analysis succeeds with genre `"Rock"` and BPM 120. -/
theorem analyzePlaylist_aggregate_spec_witness :
    ∃ r, (analyzePlaylist c1RockEnv "?list=PL" 10).1 = Except.ok r ∧
      r.trackAnalyses.length = c1Pd.videos.length ∧
      (∀ g : String, g ≠ "" →
        lookupCount r.playlistInsights.genreDistribution g =
          (if countGenre r.trackAnalyses g = 0 then none
           else some (countGenre r.trackAnalyses g))) ∧
      lookupCount r.playlistInsights.genreDistribution "" = none ∧
      r.overallAnalysis.averageBPM =
        (if (positiveBpms r.trackAnalyses).length = 0 then 0
         else jsRound (((positiveBpms r.trackAnalyses).sum : ℚ) /
           ((positiveBpms r.trackAnalyses).length : ℚ))) ∧
      r.overallAnalysis.dominantGenres.length ≤ 5 ∧
      List.Sorted (fun a b => b ≤ a)
        (r.overallAnalysis.dominantGenres.map (fun gp => gp.percentage)) ∧
      (∀ gp ∈ r.overallAnalysis.dominantGenres, ∃ c,
        lookupCount r.playlistInsights.genreDistribution gp.genre = some c ∧
        gp.percentage =
          jsRound (((c : ℚ) / (r.trackAnalyses.length : ℚ)) * 100)) ∧
      (r.playlistInsights.genreDistribution.map Prod.fst).Nodup ∧
      r.overallAnalysis.cohesionScore =
        max 0 (100 - 10 * (r.playlistInsights.genreDistribution.length : Int)) :=
  analyzePlaylist_aggregate_spec c1RockEnv "?list=PL" 10 "PL" c1Pd
    (by decide) rfl (by decide)
    (fun v _ => ⟨c1RockAnalysis, rfl⟩)

/-! ## `consolidateMusicData` (src/services/geminiService.ts)

The Last.fm / lyrics service results carry some floating-point scores
(`match`, `popularityScore`, `genreRelevance`); they are modelled as
exact rationals — no claim depends on their values.  `parseInt` on the
YouTube count strings may produce `NaN`, modelled as `none`. -/

structure LastFmTag where
  name : String
  count : Nat
  url : String
deriving DecidableEq

structure LastFmWiki where
  summary : String
  content : String
  published : String
deriving DecidableEq

/-- `match` is a Lean keyword; the field is named `matchScore`. -/
structure LastFmSimilar where
  name : String
  artist : String
  matchScore : ℚ
deriving DecidableEq

structure LastFmBio where
  summary : String
  content : String
deriving DecidableEq

structure LastFmCountTag where
  name : String
  count : Nat
deriving DecidableEq

structure LastFmNameMatch where
  name : String
  matchScore : ℚ
deriving DecidableEq

structure LastFmStats where
  playcount : Nat
  listeners : Nat
deriving DecidableEq

structure LastFmArtistInfo where
  name : String
  playcount : Nat
  listeners : Nat
  bio : LastFmBio
  tags : List LastFmCountTag
  similar : List LastFmNameMatch
  stats : LastFmStats
deriving DecidableEq

structure LastFmTrackInfo where
  name : String
  artist : String
  album : Option String
  playcount : Nat
  listeners : Nat
  tags : List LastFmTag
  wiki : Option LastFmWiki
  similar : Option (List LastFmSimilar)
deriving DecidableEq

structure PopularityAnalysis where
  popularityScore : ℚ
  trendingStatus : String
  genreRelevance : ℚ
  culturalImpact : String
deriving DecidableEq

/-- `structure` is a Lean keyword; the field is named `structureInfo`. -/
structure LyricsStructure where
  verses : Nat
  chorus : Nat
  bridge : Nat
  outro : Nat
deriving DecidableEq

structure LyricsData where
  lyrics : String
  found : Bool
  source : String
  language : Option String
  wordCount : Option Nat
  lineCount : Option Nat
  hasChorus : Option Bool
  structureInfo : Option LyricsStructure
deriving DecidableEq

structure LyricsAnalysis where
  sentiment : String
  themes : List String
  literaryDevices : List String
  vocabulary : String
  narrativePerspective : String
  emotionalTone : List String
  culturalReferences : List String
deriving DecidableEq

/-- The value of JavaScript `parseInt` on an all-relevant-prefix
basis: leading whitespace, an optional sign, then a digit run;
`none` models `NaN`. -/
def digitsVal (l : List Char) : Option Nat :=
  let d := l.takeWhile Char.isDigit
  if d.isEmpty then none else some (parseNatDigits d)

def jsParseIntOpt (s : String) : Option Int :=
  match s.data.dropWhile isJsWs with
  | '-' :: rest => (digitsVal rest).map (fun n => -(n : Int))
  | '+' :: rest => (digitsVal rest).map (fun n => (n : Int))
  | rest => (digitsVal rest).map (fun n => (n : Int))

structure ConsolidatedYouTube where
  videoId : String
  channelTitle : String
  description : String
  viewCount : Option Int
  likeCount : Option Int
  publishedAt : String
  tags : List String
  categoryId : String
deriving DecidableEq

structure ConsolidatedLastFm where
  playcount : Nat
  listeners : Nat
  tags : List LastFmTag
  wiki : Option LastFmWiki
  similar : List LastFmSimilar
  artistInfo : Option LastFmArtistInfo
  popularityAnalysis : PopularityAnalysis
deriving DecidableEq

structure ConsolidatedLyrics where
  data : LyricsData
  analysis : LyricsAnalysis
deriving DecidableEq

structure ConsolidatedMusicData where
  title : String
  artist : String
  album : Option String
  duration : Nat
  youtube : Option ConsolidatedYouTube
  lastfm : Option ConsolidatedLastFm
  lyrics : Option ConsolidatedLyrics
  platform : String
  analysisTimestamp : String
deriving DecidableEq

/-- External effects of `consolidateMusicData`: the service methods
(closing over the API keys the services were constructed with) and
`new Date().toISOString()`. -/
structure FetchEnv where
  getVideoData : String → Option YouTubeVideoData
  getTrackInfo : String → String → Option LastFmTrackInfo
  getArtistInfo : String → Option LastFmArtistInfo
  getPopularityAnalysis : String → String → PopularityAnalysis
  getLyrics : String → String → String → LyricsData
  analyzeLyricsContent : String → LyricsAnalysis
  nowISO : String

/-- `consolidateMusicData`: URL classification, video-id extraction,
mandatory YouTube fetch, then optional Last.fm / lyrics enrichment
with plain null-checks. -/
def consolidateMusicData (env : FetchEnv) (url : String) :
    Option ConsolidatedMusicData :=
  if YouTubeService.getUrlType url = YouTubeService.UrlType.video then
    match YouTubeService.extractVideoId url with
    | none => none
    | some videoId =>
      match env.getVideoData videoId with
      | none => none
      | some youtubeData =>
        let ta := extractTitleAndArtist youtubeData.title
        let lastfmTrackInfo := env.getTrackInfo ta.artist ta.title
        let lastfmArtistInfo := env.getArtistInfo ta.artist
        let popularityAnalysis := env.getPopularityAnalysis ta.artist ta.title
        let lyricsData := env.getLyrics ta.artist ta.title youtubeData.title
        let lyricsAnalysis :=
          if lyricsData.found then
            some (env.analyzeLyricsContent lyricsData.lyrics)
          else none
        some
          { title := ta.title
            artist := ta.artist
            album := lastfmTrackInfo.bind (fun ti => ti.album)
            duration := parseDuration youtubeData.duration
            youtube := some
              { videoId := youtubeData.id
                channelTitle := youtubeData.channelTitle
                description := youtubeData.description
                viewCount := jsParseIntOpt youtubeData.viewCount
                likeCount := jsParseIntOpt youtubeData.likeCount
                publishedAt := youtubeData.publishedAt
                tags := youtubeData.tags
                categoryId := youtubeData.categoryId }
            lastfm := lastfmTrackInfo.map (fun ti =>
              { playcount := ti.playcount
                listeners := ti.listeners
                tags := ti.tags
                wiki := ti.wiki
                similar := ti.similar.getD []
                artistInfo := lastfmArtistInfo
                popularityAnalysis := popularityAnalysis })
            lyrics :=
              match lyricsData.found, lyricsAnalysis with
              | true, some la => some { data := lyricsData, analysis := la }
              | _, _ => none
            platform := "youtube"
            analysisTimestamp := env.nowISO }
  else none

/-- Helper: the `lyrics` field is `undefined` when no lyrics were
found. -/
theorem consolidateLyricsField (ld : LyricsData) (la : Option LyricsAnalysis)
    (hfound : ld.found = false) :
    (match ld.found, la with
     | true, some l => some { data := ld, analysis := l }
     | _, _ => (none : Option ConsolidatedLyrics)) = none := by
  rw [hfound]

/-- C3: `consolidateMusicData` guards only by null-checks.  It
returns `none` exactly when the URL is not classified as a video URL,
when no video id can be extracted, or when the YouTube video-data
fetch returns `none`; when the mandatory YouTube data is present,
missing Last.fm track info or missing lyrics leave the corresponding
optional fields `none` without failing, while `title`, `artist`,
`duration`, `youtube`, `platform` and `analysisTimestamp` are always
populated. -/
theorem consolidateMusicData_spec :
    (∀ (env : FetchEnv) (url : String),
      consolidateMusicData env url = none ↔
        (YouTubeService.getUrlType url ≠ YouTubeService.UrlType.video ∨
          YouTubeService.extractVideoId url = none ∨
          (∃ vid, YouTubeService.extractVideoId url = some vid ∧
            env.getVideoData vid = none))) ∧
    (∀ (env : FetchEnv) (url vid : String) (ytd : YouTubeVideoData),
      YouTubeService.getUrlType url = YouTubeService.UrlType.video →
      YouTubeService.extractVideoId url = some vid →
      env.getVideoData vid = some ytd →
      ∃ r, consolidateMusicData env url = some r ∧
        r.title = (extractTitleAndArtist ytd.title).title ∧
        r.artist = (extractTitleAndArtist ytd.title).artist ∧
        r.duration = parseDuration ytd.duration ∧
        r.youtube = some
          { videoId := ytd.id
            channelTitle := ytd.channelTitle
            description := ytd.description
            viewCount := jsParseIntOpt ytd.viewCount
            likeCount := jsParseIntOpt ytd.likeCount
            publishedAt := ytd.publishedAt
            tags := ytd.tags
            categoryId := ytd.categoryId } ∧
        r.platform = "youtube" ∧
        r.analysisTimestamp = env.nowISO ∧
        (env.getTrackInfo r.artist r.title = none → r.lastfm = none) ∧
        ((env.getLyrics r.artist r.title ytd.title).found = false →
          r.lyrics = none)) := by
  constructor
  · intro env url
    by_cases hty :
        YouTubeService.getUrlType url = YouTubeService.UrlType.video
    · cases hvid : YouTubeService.extractVideoId url with
      | none =>
        simp only [consolidateMusicData, hty, if_pos rfl, hvid]
        simp [hvid]
      | some vid =>
        cases hytd : env.getVideoData vid with
        | none =>
          simp only [consolidateMusicData, hty, if_pos rfl, hvid, hytd]
          constructor
          · intro _
            exact Or.inr (Or.inr ⟨vid, rfl, hytd⟩)
          · intro _; rfl
        | some ytd =>
          simp only [consolidateMusicData, hty, if_pos rfl, hvid, hytd]
          constructor
          · intro h; cases h
          · rintro (h | h | ⟨v, hv, hnone⟩)
            · exact absurd rfl h
            · cases h
            · injection hv with hv2
              subst hv2
              rw [hytd] at hnone
              cases hnone
    · simp only [consolidateMusicData, if_neg hty]
      simp [hty]
  · intro env url vid ytd hty hvid hytd
    cases hres : consolidateMusicData env url with
    | none =>
      exfalso
      simp only [consolidateMusicData, hty, if_pos rfl, hvid, hytd] at hres
      cases hres
    | some r =>
      simp only [consolidateMusicData, hty, if_pos rfl, hvid, hytd] at hres
      injection hres with h
      refine ⟨r, rfl, ?_, ?_, ?_, ?_, ?_, ?_, ?_, ?_⟩
      · rw [← h]
      · rw [← h]
      · rw [← h]
      · rw [← h]
      · rw [← h]
      · rw [← h]
      · rw [← h]
        intro hti
        exact Option.map_eq_none'.mpr hti
      · rw [← h]
        intro hlf
        exact consolidateLyricsField _ _ hlf

def c3Ytd : YouTubeVideoData :=
  { id := "abc", title := "A - B", channelTitle := "chan",
    description := "", duration := "PT3M20S", viewCount := "1000",
    likeCount := "10", publishedAt := "2020-01-01", categoryId := "10",
    tags := [], defaultLanguage := none,
    thumbnailsHigh := { url := "", width := 0, height := 0 } }

def c3Env : FetchEnv :=
  { getVideoData := fun _ => some c3Ytd
    getTrackInfo := fun _ _ => none
    getArtistInfo := fun _ => none
    getPopularityAnalysis := fun _ _ =>
      { popularityScore := 0, trendingStatus := "stable",
        genreRelevance := 0, culturalImpact := "minimal" }
    getLyrics := fun _ _ _ =>
      { lyrics := "", found := false, source := "none", language := none,
        wordCount := none, lineCount := none, hasChorus := none,
        structureInfo := none }
    analyzeLyricsContent := fun _ =>
      { sentiment := "neutral", themes := [], literaryDevices := [],
        vocabulary := "simple", narrativePerspective := "first-person",
        emotionalTone := [], culturalReferences := [] }
    nowISO := "2024-01-01T00:00:00.000Z" }

/-- Witness for C3: a video URL with YouTube data present but both
Last.fm info and lyrics missing still consolidates, with the optional
fields left `none`. -/
theorem consolidateMusicData_spec_witness :
    ∃ r, consolidateMusicData c3Env "https://youtu.be/abc" = some r ∧
      r.title = (extractTitleAndArtist c3Ytd.title).title ∧
      r.artist = (extractTitleAndArtist c3Ytd.title).artist ∧
      r.duration = parseDuration c3Ytd.duration ∧
      r.youtube = some
        { videoId := c3Ytd.id
          channelTitle := c3Ytd.channelTitle
          description := c3Ytd.description
          viewCount := jsParseIntOpt c3Ytd.viewCount
          likeCount := jsParseIntOpt c3Ytd.likeCount
          publishedAt := c3Ytd.publishedAt
          tags := c3Ytd.tags
          categoryId := c3Ytd.categoryId } ∧
      r.platform = "youtube" ∧
      r.analysisTimestamp = c3Env.nowISO ∧
      (c3Env.getTrackInfo r.artist r.title = none → r.lastfm = none) ∧
      ((c3Env.getLyrics r.artist r.title c3Ytd.title).found = false →
        r.lyrics = none) :=
  consolidateMusicData_spec.2 c3Env "https://youtu.be/abc" "abc" c3Ytd
    (by decide) (by decide) rfl

/-! ## The Gemini response schema (src/services/geminiService.ts,
`advancedAnalysisSchema`) -/

inductive GType
  | object
  | string
  | integer
  | array
deriving DecidableEq

/-- A node of the `@google/genai` response-schema literal: its `type`,
optional `description`, `properties` with `required` (for objects) and
`items` (for arrays). -/
inductive GSchema
  | mk (type : GType) (description : Option String)
      (properties : List (String × GSchema)) (required : List String)
      (items : Option GSchema)

/-- `{ type: Type.STRING, description: d }` -/
def gstr (d : String) : GSchema := .mk .string (some d) [] [] none

/-- `{ type: Type.INTEGER, description: d }` -/
def gint (d : String) : GSchema := .mk .integer (some d) [] [] none

/-- `{ type: Type.ARRAY, items: { type: Type.STRING }, description: d }` -/
def garrStr (d : String) : GSchema :=
  .mk .array (some d) [] [] (some (.mk .string none [] [] none))

/-- `{ type: Type.ARRAY, items: it, description: d }` -/
def garr (d : String) (it : GSchema) : GSchema :=
  .mk .array (some d) [] [] (some it)

/-- `{ type: Type.OBJECT, properties: ps, required: req }` -/
def gobj (ps : List (String × GSchema)) (req : List String) : GSchema :=
  .mk .object none ps req none

def advancedAnalysisSchema : GSchema :=
  .mk .object none
    [("error", gstr "Se a análise falhar por não conseguir identificar a música ou não ter informações sobre ela, preencha este campo com a mensagem de erro. Caso contrário, deixe-o vazio."),
     ("songInfo", gobj
       [("title", gstr "O título da música."),
        ("artist", gstr "O artista ou banda."),
        ("year", gint "O ano de lançamento."),
        ("mainGenre", gstr "O gênero principal."),
        ("subgenres", garrStr "Lista de subgêneros.")]
       ["title", "artist", "year", "mainGenre", "subgenres"]),
     ("musicalElements", gobj
       [("bpm", gint "Batidas por minuto (BPM)."),
        ("key", gstr "A tonalidade (ex: C Major)."),
        ("mode", gstr "O modo (ex: Ionian, Dorian)."),
        ("timeSignature", gstr "A fórmula de compasso (ex: 4/4)."),
        ("mood", garrStr "Descritores do humor/atmosfera."),
        ("tonality", gstr "A base tonal (Tonal, Atonal, Modal)."),
        ("tempoDescription", gstr "Descrição do andamento (ex: Andante, Allegro).")]
       ["bpm", "key", "mode", "timeSignature", "mood", "tonality", "tempoDescription"]),
     ("composition", gobj
       [("formAnalysis", gstr "Análise da forma e estrutura da música (ex: AABA, Verso-Refrão)."),
        ("transitionDetails", gstr "Como as seções da música se conectam."),
        ("harmony", gstr "Análise geral da harmonia."),
        ("chordProgressions", garrStr "Progressões de acordes específicas utilizadas."),
        ("harmonicDevices", garrStr "Dispositivos harmônicos (ex: \x27Modal Interchange\x27, \x27Secondary Dominants\x27)."),
        ("melody", gstr "Análise geral da melodia."),
        ("melodicContour", gstr "O contorno e a forma das linhas melódicas."),
        ("vocalTechnique", gstr "Técnicas vocais notáveis (ex: Belting, Falsetto, Vibrato)."),
        ("rhythm", gstr "Análise geral do ritmo (flow)."),
        ("rhythmicPatterns", gstr "Padrões rítmicos importantes."),
        ("syncopationDetails", gstr "Análise do uso de sincopação.")]
       ["formAnalysis", "transitionDetails", "harmony", "chordProgressions", "harmonicDevices", "melody", "melodicContour", "vocalTechnique", "rhythm", "rhythmicPatterns", "syncopationDetails"]),
     ("soundEngineering", gobj
       [("instrumentation", garr "Lista de instrumentos e uma análise de sua performance."
          (gobj
            [("instrument", .mk .string none [] [] none),
             ("performanceAnalysis", .mk .string none [] [] none)]
            ["instrument", "performanceAnalysis"])),
        ("mixing", gstr "Análise das técnicas de mixagem."),
        ("dynamicRange", gstr "Análise da faixa dinâmica (ex: \x27Altamente comprimido\x27, \x27Amplo e dinâmico\x27)."),
        ("panningDetails", gstr "Descrição do posicionamento estéreo (panning)."),
        ("frequencyBalance", gstr "O balanço de frequências (ex: \x27Grave-pesado\x27, \x27Agudos brilhantes\x27)."),
        ("mastering", gstr "Análise da masterização."),
        ("lufs", gstr "Valor de LUFS integrado estimado."),
        ("stereoWidth", gstr "Análise da largura do estéreo."),
        ("soundstage", gstr "Descrição do palco sonoro."),
        ("effects", garrStr "Lista de efeitos notáveis utilizados.")]
       ["instrumentation", "mixing", "dynamicRange", "panningDetails", "frequencyBalance", "mastering", "lufs", "stereoWidth", "soundstage", "effects"]),
     ("lyricalAnalysis", gobj
       [("theme", gstr "O tema central das letras."),
        ("narrativeStructure", gstr "A estrutura narrativa ou história contada."),
        ("literaryDevices", garrStr "Dispositivos literários utilizados (metáforas, etc.)."),
        ("rhymeScheme", gstr "O esquema de rimas (ex: AABB, ABAB).")]
       ["theme", "narrativeStructure", "literaryDevices", "rhymeScheme"]),
     ("culturalContext", gobj
       [("historicalSignificance", gstr "O significado histórico da música."),
        ("influences", gstr "Artistas ou gêneros que influenciaram esta faixa."),
        ("impact", gstr "O impacto da música no gênero ou cultura.")]
       ["historicalSignificance", "influences", "impact"]),
     ("genreAnalysis", gobj
       [("primaryGenre", gstr "Gênero musical principal identificado com precisão acadêmica."),
        ("subgenres", garrStr "Lista de subgêneros específicos presentes na música."),
        ("genreConfidence", gint "Nível de confiança na classificação de gênero (0-100)."),
        ("crossGenreInfluences", garrStr "Influências de outros gêneros detectadas."),
        ("genreEvolution", gstr "Como esta música se relaciona com a evolução do gênero."),
        ("regionalInfluences", garrStr "Influências regionais ou culturais específicas.")]
       ["primaryGenre", "subgenres", "genreConfidence", "crossGenreInfluences", "genreEvolution", "regionalInfluences"]),
     ("flowAnalysis", gobj
       [("overallFlow", gstr "Análise geral do flow e cadência da música."),
        ("rhythmicComplexity", gint "Complexidade rítmica em escala de 1-10."),
        ("syncopationLevel", gint "Nível de sincopação presente (1-10)."),
        ("groovePattern", gstr "Padrão de groove característico identificado."),
        ("rhythmicVariations", garrStr "Variações rítmicas notáveis ao longo da música."),
        ("polyrhythmicElements", garrStr "Elementos polirrítmicos presentes.")]
       ["overallFlow", "rhythmicComplexity", "syncopationLevel", "groovePattern", "rhythmicVariations", "polyrhythmicElements"]),
     ("popularityMetrics", gobj
       [("globalPopularity", gint "Popularidade global estimada (0-100)."),
        ("regionalPopularity", gstr "Descrição da popularidade por região geográfica."),
        ("trendingStatus", gstr "Status de tendência: rising, stable, declining, viral, classic."),
        ("culturalImpact", gstr "Impacto cultural: minimal, moderate, significant, revolutionary."),
        ("crossoverAppeal", gint "Apelo crossover entre diferentes audiências (0-100).")]
       ["globalPopularity", "regionalPopularity", "trendingStatus", "culturalImpact", "crossoverAppeal"]),
     ("technicalAnalysis", gobj
       [("productionQuality", gint "Qualidade da produção em escala de 1-10."),
        ("mixingTechniques", garrStr "Técnicas de mixagem identificadas."),
        ("masteringApproach", gstr "Abordagem de masterização utilizada."),
        ("spatialDesign", gstr "Design espacial e posicionamento dos elementos."),
        ("frequencySpectrum", gobj
          [("lowEnd", gstr "Análise das frequências graves."),
           ("midRange", gstr "Análise das frequências médias."),
           ("highEnd", gstr "Análise das frequências agudas.")]
          ["lowEnd", "midRange", "highEnd"]),
        ("dynamicProcessing", garrStr "Processamento dinâmico aplicado.")]
       ["productionQuality", "mixingTechniques", "masteringApproach", "spatialDesign", "frequencySpectrum", "dynamicProcessing"])]
    ["songInfo", "musicalElements", "composition", "soundEngineering", "lyricalAnalysis", "culturalContext", "genreAnalysis", "flowAnalysis", "popularityMetrics", "technicalAnalysis"]
    none

/-! ## `createAdvancedAnalysisPrompt` (src/services/geminiService.ts) -/

structure LangConfig where
  name : String
  instruction : String
  expertise : String
deriving DecidableEq

/-- `LANGUAGE_MAPPING` (insertion-ordered string-keyed object). -/
def LANGUAGE_MAPPING : List (String × LangConfig) :=
  [("pt-BR",
    { name := "Português (Brasil)"
      instruction := "Responda EXCLUSIVAMENTE em português brasileiro. Use terminologia musical em português."
      expertise := "Dr. Musicólogo Brasileiro, Eng. de Som Master, Compositor Virtuoso, Analista de Tendências" }),
   ("en-US",
    { name := "English (US)"
      instruction := "Respond EXCLUSIVELY in English. Use proper musical terminology in English."
      expertise := "Dr. Musicologist, Master Sound Engineer, Virtuoso Composer, Trends Analyst" }),
   ("es-ES",
    { name := "Español (España)"
      instruction := "Responde EXCLUSIVAMENTE en español. Usa terminología musical en español."
      expertise := "Dr. Musicólogo, Ingeniero de Sonido Master, Compositor Virtuoso, Analista de Tendencias" }),
   ("fr-FR",
    { name := "Français (France)"
      instruction := "Répondez EXCLUSIVEMENT en français. Utilisez la terminologie musicale en français."
      expertise := "Dr. Musicologue, Ingénieur du Son Master, Compositeur Virtuose, Analyste de Tendances" }),
   ("de-DE",
    { name := "Deutsch (Deutschland)"
      instruction := "Antworten Sie AUSSCHLIESSLICH auf Deutsch. Verwenden Sie deutsche Musikterminologie."
      expertise := "Dr. Musikwissenschaftler, Master-Toningenieur, Virtuoser Komponist, Trend-Analyst" }),
   ("it-IT",
    { name := "Italiano (Italia)"
      instruction := "Rispondi ESCLUSIVAMENTE in italiano. Usa la terminologia musicale in italiano."
      expertise := "Dr. Musicologo, Ingegnere del Suono Master, Compositore Virtuoso, Analista di Tendenze" }),
   ("ja-JP",
    { name := "日本語 (日本)"
      instruction := "Respond EXCLUSIVELY in Japanese. Use proper musical terminology in Japanese."
      expertise := "音楽学博士、マスター音響エンジニア、バーチュオーゾ作曲家、トレンドアナリスト" }),
   ("ko-KR",
    { name := "한국어 (대한민국)"
      instruction := "Respond EXCLUSIVELY in Korean. Use proper musical terminology in Korean."
      expertise := "음악학 박사, 마스터 사운드 엔지니어, 비르투오소 작곡가, 트렌드 분석가" })]

/-- `LANGUAGE_MAPPING[language] || LANGUAGE_MAPPING["pt-BR"]` (the
first entry is the pt-BR config). -/
def langConfigFor (language : String) : LangConfig :=
  (((LANGUAGE_MAPPING.find? (fun p => p.1 = language)).map
    (fun p => p.2))).getD
    { name := "Português (Brasil)"
      instruction := "Responda EXCLUSIVAMENTE em português brasileiro. Use terminologia musical em português."
      expertise := "Dr. Musicólogo Brasileiro, Eng. de Som Master, Compositor Virtuoso, Analista de Tendências" }

/-- Host-provided (locale-dependent) string conversions used by the
template: `Number.prototype.toLocaleString` (with `none` standing for
`NaN`), `new Date(s).toLocaleDateString()`, and number-to-string
conversion for the rational popularity score. -/
structure JsHostEnv where
  toLocaleStringNum : Option Int → String
  toLocaleDateString : String → String
  numToString : ℚ → String

/-- Concatenation of the parts of a template literal. -/
def concatAll : List String → String
  | [] => ""
  | p :: ps => p ++ concatAll ps

/-- `expertise.split(", ")[i]` — a missing element interpolates as
`"undefined"`. -/
def expertisePart (e : String) (i : Nat) : String :=
  (e.splitOn ", ").getD i "undefined"

/-- `${data.album || "N/A"}`. -/
def albumOrNA : Option String → String
  | some a => if a = "" then "N/A" else a
  | none => "N/A"

/-- The `youtubeData ? ... : "Dados não disponíveis"` block. -/
def youtubeBlock (host : JsHostEnv) (y : ConsolidatedYouTube) : String :=
  concatAll
    ["\n- **Canal**: ", y.channelTitle,
     "\n- **Visualizações**: ", host.toLocaleStringNum y.viewCount,
     "\n- **Likes**: ", host.toLocaleStringNum y.likeCount,
     "\n- **Data de Publicação**: ", host.toLocaleDateString y.publishedAt,
     "\n- **Tags**: ", String.intercalate ", " (y.tags.take 10),
     "\n- **Categoria**: ", y.categoryId,
     "\n"]

/-- The `lastfmData ? ... : "Dados não disponíveis"` block. -/
def lastfmBlock (host : JsHostEnv) (lf : ConsolidatedLastFm) : String :=
  concatAll
    ["\n- **Plays Globais**: ", host.toLocaleStringNum (some (lf.playcount : Int)),
     "\n- **Ouvintes Únicos**: ", host.toLocaleStringNum (some (lf.listeners : Int)),
     "\n- **Tags de Gênero**: ",
     String.intercalate ", "
       ((lf.tags.take 8).map (fun t => t.name ++ " (" ++ toString t.count ++ ")")),
     "\n- **Popularidade Score**: ",
     host.numToString lf.popularityAnalysis.popularityScore, "/100",
     "\n- **Impacto Cultural**: ", lf.popularityAnalysis.culturalImpact,
     "\n- **Status de Tendência**: ", lf.popularityAnalysis.trendingStatus,
     "\n",
     (if lf.similar.length > 0 then
       "- **Faixas Similares**: " ++
         String.intercalate ", "
           ((lf.similar.take 3).map (fun s => s.name ++ " - " ++ s.artist))
     else ""),
     "\n"]

/-- The parts of the `createAdvancedAnalysisPrompt` template literal,
in order (static text alternating with the interpolated values). -/
def promptPieces (host : JsHostEnv) (data : ConsolidatedMusicData)
    (language : String) : List String :=
  let langConfig := langConfigFor language
  ["\n# ANÁLISE MUSICAL ACADÊMICA AVANÇADA\n## Nível: Pós-Doutorado em Musicologia, Engenharia de Áudio e Composição\n\n**IDIOMA DE RESPOSTA**: ",
   langConfig.instruction,
   "\n\nVocê é um consórcio de especialistas de elite mundial:\n- **",
   expertisePart langConfig.expertise 0,
   "**: PhD em Musicologia Histórica e Etnomusicologia (Harvard/Juilliard)\n- **",
   expertisePart langConfig.expertise 1,
   "**: 30+ anos, Grammy winner, especialista em análise espectral\n- **",
   expertisePart langConfig.expertise 2,
   "**: Mestre em teoria musical avançada e análise harmônica\n- **",
   expertisePart langConfig.expertise 3,
   "**: Especialista em sociologia musical e impacto cultural\n\n---\n\n## DADOS CONSOLIDADOS PARA ANÁLISE\n\n### IDENTIFICAÇÃO MUSICAL\n- **Título**: \"",
   data.title,
   "\"\n- **Artista**: \"",
   data.artist,
   "\"\n- **Álbum**: ",
   albumOrNA data.album,
   "\n- **Duração**: ",
   toString (data.duration / 60) ++ ":" ++ pad2 (data.duration % 60),
   "\n- **Plataforma**: ",
   data.platform,
   "\n\n### DADOS YOUTUBE (Engagement & Distribuição)\n",
   (match data.youtube with
    | some y => youtubeBlock host y
    | none => "Dados não disponíveis"),
   "\n\n### DADOS LAST.FM (Popularidade & Contexto Cultural)\n",
   (match data.lastfm with
    | some lf => lastfmBlock host lf
    | none => "Dados não disponíveis"),
   "\n\n### DADOS DE LETRAS (Análise Baseada em Conhecimento)\n- **Status**: Letras não disponíveis (limitações de CORS das APIs)\n- **Método de Análise**: Baseado em conhecimento extenso sobre a música\n- **Fonte**: Conhecimento da IA sobre o artista \"",
   data.artist,
   "\" e música \"",
   data.title,
   "\"\n- **Contexto**: Use seu conhecimento sobre o gênero, artista e período para análise lírica\n- **Instruções**: Forneça análise lírica detalhada baseada em:\n  - Conhecimento sobre o artista e suas obras\n  - Características típicas do gênero musical\n  - Contexto cultural e histórico\n  - Temas comuns do artista/gênero\n\n---\n\n## INSTRUÇÕES DE ANÁLISE CRÍTICA\n\n### 1. ANÁLISE DE GÊNERO E ESTILO (Nível PhD)\n- Identifique o **gênero primário** com precisão acadêmica\n- Mapeie **subgêneros** e **micro-gêneros** específicos\n- Analise **influências cross-genre** e **fusões estilísticas**\n- Determine **evolução do gênero** e posicionamento histórico\n- Identifique **influências regionais/culturais** específicas\n\n### 2. ANÁLISE DE FLOW E RITMO (Engenharia de Precisão)\n- Avalie **complexidade rítmica** em escala técnica (1-10)\n- Analise **padrões de sincopação** e **deslocamentos métricos**\n- Identifique **groove patterns** característicos\n- Mapeie **variações rítmicas** ao longo da estrutura\n- Detecte **elementos polirrítmicos** e **cross-rhythms**\n\n### 3. ANÁLISE TÉCNICA DE PRODUÇÃO (Master Engineer Level)\n- Avalie **qualidade de produção** (1-10) com justificativa técnica\n- Identifique **técnicas de mixagem** específicas utilizadas\n- Analise **abordagem de masterização** e **processamento dinâmico**\n- Mapeie **design espacial** e **posicionamento estéreo**\n- Analise **espectro de frequências** (graves/médios/agudos) detalhadamente\n\n### 4. ANÁLISE LÍRICA E SEMÂNTICA (Nível Literário Acadêmico)\n**IMPORTANTE**: As letras não estão disponíveis devido a limitações de CORS das APIs.\nRealize análise lírica baseada em seu **conhecimento extenso** sobre a música:\n\n- Analise **temas prováveis** baseado no artista, gênero e contexto cultural\n- Estime **tom emocional** típico do artista e estilo musical\n- Identifique **características líricas** comuns do gênero\n- Avalie **dispositivos literários** típicos do estilo\n- Determine **perspectiva narrativa** comum no gênero\n- Correlacione **estilo lírico** com elementos musicais\n- Baseie-se em **conhecimento sobre o artista** e suas obras conhecidas\n- Use **contexto cultural** e **período histórico** da música\n\n### 5. MÉTRICAS DE POPULARIDADE E IMPACTO\n- Calcule **popularidade global** baseada em dados consolidados\n- Analise **status de tendência** e **momentum cultural**\n- Avalie **apelo crossover** entre diferentes demografias\n- Determine **impacto cultural** com base em métricas objetivas\n\n---\n\n## FORMATO DE RESPOSTA OBRIGATÓRIO\n\n**IDIOMA OBRIGATÓRIO**: ",
   langConfig.instruction,
   "\n\nResponda EXCLUSIVAMENTE em formato JSON seguindo o schema fornecido.\nCada campo deve ser preenchido com análise profunda e tecnicamente precisa.\nUse terminologia acadêmica apropriada para cada área de especialização.\nTODOS os textos dentro do JSON devem estar no idioma especificado acima.\n\n**CRÍTICO**: Esta análise deve refletir o nível de um paper acadêmico de pós-doutorado.\nSeja específico, técnico e fundamentado em dados quando disponível.\nLEMBRE-SE: Toda a resposta deve estar no idioma ",
   langConfig.name,
   ".\n"]

/-- `createAdvancedAnalysisPrompt` (the language-aware version): the
template literal, as the concatenation of its parts. -/
def createAdvancedAnalysisPrompt (host : JsHostEnv)
    (data : ConsolidatedMusicData) (language : String) : String :=
  concatAll (promptPieces host data language)

/-! ## `analyzeMusic` (src/services/geminiService.ts) -/

/-- One `generateContent` request as issued by `analyzeMusic`. -/
structure GenRequest where
  model : String
  contents : String
  responseMimeType : String
  responseSchema : GSchema
  temperature : ℚ

/-- External effects of `analyzeMusic`: the consolidation fetches,
the host string conversions, the Gemini call (its thrown errors carry
the message), and `JSON.parse` with the `Analysis` cast (a parse
failure is the thrown `SyntaxError` message). -/
structure GeminiEnv where
  fetchEnv : FetchEnv
  host : JsHostEnv
  generate : GenRequest → Except String (Option String)
  parseAnalysis : String → Except String Analysis

/-- The `catch` block of `analyzeMusic`: maps the thrown message to
the user-facing error message. -/
def mapGeminiError (msg : String) : String :=
  if jsIncludes msg "API key not valid" || jsIncludes msg "INVALID_ARGUMENT" then
    "A chave de API fornecida é inválida. Verifique se a chave está correta e tente novamente."
  else if jsIncludes msg "SERVICE_DISABLED" || jsIncludes msg "PERMISSION_DENIED" then
    "A API Generative Language não está habilitada no seu projeto Google Cloud. Acesse https://console.developers.google.com/apis/api/generativelanguage.googleapis.com/overview e habilite a API, depois aguarde alguns minutos antes de tentar novamente."
  else if jsIncludes msg "QUOTA_EXCEEDED" then
    "Cota da API Gemini excedida. Verifique os limites da sua chave de API no Google Cloud Console."
  else if jsIncludes msg "xhr error" || jsIncludes msg "CORS" then
    "Erro de rede ao contatar a API Gemini. Isso pode ser um problema de CORS ou conectividade. Verifique sua conexão com a internet."
  else if jsIncludes msg "RESOURCE_EXHAUSTED" then
    "Recursos da API temporariamente esgotados. Tente novamente em alguns minutos."
  else
    "Falha ao obter a análise da API Gemini: " ++
      (if msg = "" then "Erro desconhecido" else msg) ++
      ". Verifique o console para mais detalhes."

/-- `response.text?.trim() || ""` — the text extracted from the
Gemini response before `JSON.parse`. -/
def responseTextOf (txt : Option String) : String :=
  match txt with
  | some t => jsTrim t
  | none => ""

/-- `analyzeMusic`: key validation, consolidation, a single
`generateContent` request, and `JSON.parse` of the response text.
Returns the result (or thrown error) and the list of Gemini requests
issued. -/
def analyzeMusic (env : GeminiEnv)
    (url geminiApiKey youtubeApiKey lastfmApiKey : String)
    (stands4ApiKey geniusApiKey language : String) :
    Except String Analysis × List GenRequest :=
  -- the four non-Gemini API keys only configure the services already
  -- captured in `env.fetchEnv`
  if geminiApiKey = "" then
    (Except.error "A chave de API da Gemini não foi fornecida.", [])
  else if youtubeApiKey = "" then
    (Except.error "A chave de API do YouTube não foi fornecida.", [])
  else if lastfmApiKey = "" then
    (Except.error "A chave de API do Last.fm não foi fornecida.", [])
  else
    match consolidateMusicData env.fetchEnv url with
    | none =>
      (Except.error
        "Não foi possível obter dados da música. Verifique se a URL é válida.",
        [])
    | some consolidatedData =>
      let prompt := createAdvancedAnalysisPrompt env.host consolidatedData language
      let req : GenRequest :=
        { model := "gemini-2.5-flash"
          contents := prompt
          responseMimeType := "application/json"
          responseSchema := advancedAnalysisSchema
          temperature := 1 / 10 }
      match env.generate req with
      | Except.error m => (Except.error (mapGeminiError m), [req])
      | Except.ok txt =>
        match env.parseAnalysis (responseTextOf txt) with
        | Except.ok parsedData => (Except.ok parsedData, [req])
        | Except.error m => (Except.error (mapGeminiError m), [req])

/-! Substring facts for the prompt. -/

theorem infix_concatAll {x : String} :
    ∀ {ps : List String}, x ∈ ps → x.data <:+: (concatAll ps).data := by
  intro ps
  induction ps with
  | nil => intro h; cases h
  | cons p t ih =>
    intro h
    rcases List.mem_cons.mp h with rfl | h
    · exact ⟨[], (concatAll t).data, by simp [concatAll, String.data_append]⟩
    · obtain ⟨s, u, hsu⟩ := ih h
      exact ⟨p.data ++ s, u, by
        simp [concatAll, String.data_append, ← hsu, List.append_assoc]⟩

theorem infix_trans_str {x y z : String} (h1 : x.data <:+: y.data)
    (h2 : y.data <:+: z.data) : x.data <:+: z.data :=
  h1.trans h2

/-- C5: `analyzeMusic` validates by null-checks and fails fast: it
throws when the Gemini API key is empty, when the YouTube API key is
empty, when the Last.fm API key is empty, or when consolidation
returns `null`; in each case the thrown message is the source's and
no `generateContent` request has been issued (the request trace is
empty). -/
theorem analyzeMusic_validation_spec :
    ∀ (env : GeminiEnv) (url gk yk lk s4 gn lang : String),
      (gk = "" →
        analyzeMusic env url gk yk lk s4 gn lang =
          (Except.error "A chave de API da Gemini não foi fornecida.", [])) ∧
      (gk ≠ "" → yk = "" →
        analyzeMusic env url gk yk lk s4 gn lang =
          (Except.error "A chave de API do YouTube não foi fornecida.", [])) ∧
      (gk ≠ "" → yk ≠ "" → lk = "" →
        analyzeMusic env url gk yk lk s4 gn lang =
          (Except.error "A chave de API do Last.fm não foi fornecida.", [])) ∧
      (gk ≠ "" → yk ≠ "" → lk ≠ "" →
        consolidateMusicData env.fetchEnv url = none →
        analyzeMusic env url gk yk lk s4 gn lang =
          (Except.error
            "Não foi possível obter dados da música. Verifique se a URL é válida.",
            [])) := by
  intro env url gk yk lk s4 gn lang
  refine ⟨?_, ?_, ?_, ?_⟩
  · intro h
    simp [analyzeMusic, h]
  · intro h1 h2
    simp [analyzeMusic, h1, h2]
  · intro h1 h2 h3
    simp [analyzeMusic, h1, h2, h3]
  · intro h1 h2 h3 h4
    simp [analyzeMusic, h1, h2, h3, h4]

def c5Env : GeminiEnv :=
  { fetchEnv :=
      { getVideoData := fun _ => none
        getTrackInfo := fun _ _ => none
        getArtistInfo := fun _ => none
        getPopularityAnalysis := fun _ _ =>
          { popularityScore := 0, trendingStatus := "stable",
            genreRelevance := 0, culturalImpact := "minimal" }
        getLyrics := fun _ _ _ =>
          { lyrics := "", found := false, source := "none", language := none,
            wordCount := none, lineCount := none, hasChorus := none,
            structureInfo := none }
        analyzeLyricsContent := fun _ =>
          { sentiment := "neutral", themes := [], literaryDevices := [],
            vocabulary := "simple", narrativePerspective := "first-person",
            emotionalTone := [], culturalReferences := [] }
        nowISO := "2024-01-01T00:00:00.000Z" }
    host :=
      { toLocaleStringNum := fun _ => "0"
        toLocaleDateString := fun _ => "1/1/2024"
        numToString := fun _ => "0" }
    generate := fun _ => Except.ok (some "{}")
    parseAnalysis := fun _ => Except.error "SyntaxError: Unexpected end" }

/-- Witness for C5: the empty-Gemini-key case and the
failed-consolidation case at concrete inputs, both with an empty
request trace. -/
theorem analyzeMusic_validation_spec_witness :
    analyzeMusic c5Env "https://youtu.be/x" "" "yk" "lk" "" "" "pt-BR" =
        (Except.error "A chave de API da Gemini não foi fornecida.", []) ∧
      analyzeMusic c5Env "https://youtu.be/x" "gk" "yk" "lk" "" "" "pt-BR" =
        (Except.error
          "Não foi possível obter dados da música. Verifique se a URL é válida.",
          []) :=
  ⟨(analyzeMusic_validation_spec c5Env "https://youtu.be/x" "" "yk" "lk"
      "" "" "pt-BR").1 rfl,
    ((analyzeMusic_validation_spec c5Env "https://youtu.be/x" "gk" "yk" "lk"
      "" "" "pt-BR").2.2.2) (by decide) (by decide) (by decide) (by decide)⟩

/-- C4: for every consolidated record, `analyzeMusic` builds exactly
one prompt via `createAdvancedAnalysisPrompt` — a pure templating
function that embeds the record's title, artist, album (or the
literal `N/A`), the duration formatted `minutes:seconds`, and, when
the optional `youtube` / `lastfm` sub-records are present, their
fields (otherwise the literal `Dados não disponíveis`) — sends it in
a single `generateContent` request whose `responseSchema` is
`advancedAnalysisSchema` (model `gemini-2.5-flash`, JSON mime type,
temperature 0.1), and returns the JSON-parse of the response text as
the `Analysis` result. -/
theorem analyzeMusic_prompt_spec :
    ∀ (env : GeminiEnv) (url gk yk lk s4 gn lang : String)
      (d : ConsolidatedMusicData),
      gk ≠ "" → yk ≠ "" → lk ≠ "" →
      consolidateMusicData env.fetchEnv url = some d →
      ((analyzeMusic env url gk yk lk s4 gn lang).2 =
        [{ model := "gemini-2.5-flash"
           contents := createAdvancedAnalysisPrompt env.host d lang
           responseMimeType := "application/json"
           responseSchema := advancedAnalysisSchema
           temperature := 1 / 10 }]) ∧
      (∀ (t : Option String) (a : Analysis),
        env.generate
          { model := "gemini-2.5-flash"
            contents := createAdvancedAnalysisPrompt env.host d lang
            responseMimeType := "application/json"
            responseSchema := advancedAnalysisSchema
            temperature := 1 / 10 } = Except.ok t →
        env.parseAnalysis (responseTextOf t) = Except.ok a →
        (analyzeMusic env url gk yk lk s4 gn lang).1 = Except.ok a) ∧
      d.title.data <:+:
        (createAdvancedAnalysisPrompt env.host d lang).data ∧
      d.artist.data <:+:
        (createAdvancedAnalysisPrompt env.host d lang).data ∧
      (albumOrNA d.album).data <:+:
        (createAdvancedAnalysisPrompt env.host d lang).data ∧
      (toString (d.duration / 60) ++ ":" ++ pad2 (d.duration % 60)).data <:+:
        (createAdvancedAnalysisPrompt env.host d lang).data ∧
      (d.youtube = none →
        "Dados não disponíveis".data <:+:
          (createAdvancedAnalysisPrompt env.host d lang).data) ∧
      (∀ y, d.youtube = some y →
        y.channelTitle.data <:+:
          (createAdvancedAnalysisPrompt env.host d lang).data) ∧
      (d.lastfm = none →
        "Dados não disponíveis".data <:+:
          (createAdvancedAnalysisPrompt env.host d lang).data) ∧
      (∀ lf, d.lastfm = some lf →
        lf.popularityAnalysis.trendingStatus.data <:+:
          (createAdvancedAnalysisPrompt env.host d lang).data) := by
  intro env url gk yk lk s4 gn lang d hgk hyk hlk hd
  refine ⟨?_, ?_, ?_, ?_, ?_, ?_, ?_, ?_, ?_, ?_⟩
  · -- exactly one request, with this prompt and schema
    simp only [analyzeMusic, if_neg hgk, if_neg hyk, if_neg hlk, hd]
    cases hgen : env.generate
        { model := "gemini-2.5-flash"
          contents := createAdvancedAnalysisPrompt env.host d lang
          responseMimeType := "application/json"
          responseSchema := advancedAnalysisSchema
          temperature := 1 / 10 } with
    | error m => rfl
    | ok txt =>
      cases hp : env.parseAnalysis (responseTextOf txt) with
      | ok a => simp only [hp]
      | error m => simp only [hp]
  · -- the result is the JSON-parse of the response text
    intro t a hgen hparse
    simp only [analyzeMusic, if_neg hgk, if_neg hyk, if_neg hlk, hd, hgen,
      hparse]
  · exact infix_concatAll (by simp [promptPieces, createAdvancedAnalysisPrompt])
  · exact infix_concatAll (by simp [promptPieces, createAdvancedAnalysisPrompt])
  · exact infix_concatAll (by simp [promptPieces, createAdvancedAnalysisPrompt])
  · exact infix_concatAll (by simp [promptPieces, createAdvancedAnalysisPrompt])
  · intro hy
    exact infix_concatAll
      (by simp [promptPieces, createAdvancedAnalysisPrompt, hy])
  · intro y hy
    have hblk : y.channelTitle.data <:+: (youtubeBlock env.host y).data := by
      unfold youtubeBlock
      exact infix_concatAll (by simp)
    refine infix_trans_str hblk (infix_concatAll ?_)
    simp [promptPieces, createAdvancedAnalysisPrompt, hy]
  · intro hlf
    exact infix_concatAll
      (by simp [promptPieces, createAdvancedAnalysisPrompt, hlf])
  · intro lf hlf
    have hblk : lf.popularityAnalysis.trendingStatus.data <:+:
        (lastfmBlock env.host lf).data := by
      unfold lastfmBlock
      exact infix_concatAll (by simp)
    refine infix_trans_str hblk (infix_concatAll ?_)
    simp [promptPieces, createAdvancedAnalysisPrompt, hlf]

def c4Ytd : YouTubeVideoData :=
  { id := "abc", title := "A - B", channelTitle := "chan",
    description := "", duration := "PT3M20S", viewCount := "1000",
    likeCount := "10", publishedAt := "2020-01-01", categoryId := "10",
    tags := [], defaultLanguage := none,
    thumbnailsHigh := { url := "", width := 0, height := 0 } }

def c4Env : GeminiEnv :=
  { fetchEnv :=
      { getVideoData := fun _ => some c4Ytd
        getTrackInfo := fun _ _ => none
        getArtistInfo := fun _ => none
        getPopularityAnalysis := fun _ _ =>
          { popularityScore := 0, trendingStatus := "stable",
            genreRelevance := 0, culturalImpact := "minimal" }
        getLyrics := fun _ _ _ =>
          { lyrics := "", found := false, source := "none", language := none,
            wordCount := none, lineCount := none, hasChorus := none,
            structureInfo := none }
        analyzeLyricsContent := fun _ =>
          { sentiment := "neutral", themes := [], literaryDevices := [],
            vocabulary := "simple", narrativePerspective := "first-person",
            emotionalTone := [], culturalReferences := [] }
        nowISO := "2024-01-01T00:00:00.000Z" }
    host :=
      { toLocaleStringNum := fun _ => "n"
        toLocaleDateString := fun s => s
        numToString := fun _ => "0" }
    generate := fun _ => Except.ok (some "{}")
    parseAnalysis := fun _ => Except.error "SyntaxError" }

/-- The consolidated record produced for the witness URL. -/
def c4Data : ConsolidatedMusicData :=
  match consolidateMusicData c4Env.fetchEnv "https://youtu.be/abc" with
  | some d => d
  | none =>
    { title := "", artist := "", album := none, duration := 0,
      youtube := none, lastfm := none, lyrics := none, platform := "",
      analysisTimestamp := "" }

/-- Witness for C4: at a concrete environment and URL with all keys
present, the request trace of `analyzeMusic` is exactly one request
carrying the assembled prompt and `advancedAnalysisSchema`. -/
theorem analyzeMusic_prompt_spec_witness :
    (analyzeMusic c4Env "https://youtu.be/abc" "g" "y" "l" "" "" "pt").2 =
      [{ model := "gemini-2.5-flash"
         contents := createAdvancedAnalysisPrompt c4Env.host c4Data "pt"
         responseMimeType := "application/json"
         responseSchema := advancedAnalysisSchema
         temperature := 1 / 10 }] :=
  (analyzeMusic_prompt_spec c4Env "https://youtu.be/abc" "g" "y" "l" "" ""
    "pt" c4Data (by decide) (by decide) (by decide) (by decide)).1

/-! ## The UI handler (src/App.tsx, `handleAnalyze`) -/

/-- The component state read and written by `handleAnalyze` (the
`useState` hooks of `App`). -/
structure AppState where
  youtubeUrl : String
  geminiApiKey : String
  youtubeApiKey : String
  lastfmApiKey : String
  isPlaylist : Bool
  analysis : Option Analysis
  isLoading : Bool
  error : Option String
  progressMessage : String

/-- One observable step of `handleAnalyze`: a state-setter call, a
`console.warn`, or the start of a service call (with its
arguments). -/
inductive AppAction
  | setIsLoading (b : Bool)
  | setError (e : Option String)
  | setAnalysis (a : Option Analysis)
  | setProgressMessage (m : String)
  | consoleWarn (m : String)
  | callAnalyzePlaylist (url gk yk lk : String) (maxTracks : Nat)
  | callAnalyzeMusic (url gk yk lk : String)

/-- Result of an awaited service call: a value, or a thrown JS value
(`isError` models `err instanceof Error`; the message is the
`err.message` read in that case). -/
inductive JsOutcome (α : Type)
  | value (a : α)
  | thrown (isError : Bool) (message : String)

/-- External behaviour of the two awaited service calls: the progress
messages each reports through the `setProgressMessage` callback, and
its outcome. -/
structure HandleEnv where
  playlistProgress : List String
  playlistOutcome : JsOutcome PlaylistAnalysis
  musicProgress : List String
  musicOutcome : JsOutcome Analysis

/-- Effect of a state-setter action on the component state; warnings
and call markers leave the state unchanged. -/
def applyAction (st : AppState) : AppAction → AppState
  | .setIsLoading b => { st with isLoading := b }
  | .setError e => { st with error := e }
  | .setAnalysis a => { st with analysis := a }
  | .setProgressMessage m => { st with progressMessage := m }
  | .consoleWarn _ => st
  | .callAnalyzePlaylist _ _ _ _ _ => st
  | .callAnalyzeMusic _ _ _ _ => st

/-- The `console.warn` about missing optional keys. -/
def warnPart (st : AppState) : List AppAction :=
  if jsTrim st.youtubeApiKey = "" || jsTrim st.lastfmApiKey = "" then
    [.consoleWarn "⚠️ Algumas funcionalidades podem ser limitadas sem as chaves opcionais do YouTube e Last.fm"]
  else []

/-- The `try` block of `handleAnalyze`: playlist or single-music
analysis, consuming the call's progress messages and outcome. -/
def handleTryBody (st : AppState) (env : HandleEnv) : List AppAction :=
  if st.isPlaylist then
    [.setProgressMessage "📋 Detectada playlist - Obtendo lista de músicas..."] ++
    [.callAnalyzePlaylist st.youtubeUrl st.geminiApiKey st.youtubeApiKey
      st.lastfmApiKey 10] ++
    env.playlistProgress.map .setProgressMessage ++
    (match env.playlistOutcome with
     | .value pr =>
       match pr.trackAnalyses with
       | a :: _ => [.setAnalysis (some a)]
       | [] =>
         [.setError (some "Não foi possível analisar nenhuma música da playlist.")]
     | .thrown isErr msg =>
       [.setError (some (if isErr then msg
         else "Ocorreu um erro desconhecido durante a análise."))])
  else
    [.setProgressMessage "🎵 Música individual detectada - Coletando dados..."] ++
    [.callAnalyzeMusic st.youtubeUrl st.geminiApiKey st.youtubeApiKey
      st.lastfmApiKey] ++
    env.musicProgress.map .setProgressMessage ++
    (match env.musicOutcome with
     | .value r =>
       match r.error with
       | some e =>
         if e = "" then [.setAnalysis (some r)]
         else [.setError (some e), .setAnalysis none]
       | none => [.setAnalysis (some r)]
     | .thrown isErr msg =>
       [.setError (some (if isErr then msg
         else "Ocorreu um erro desconhecido durante a análise."))])

/-- `handleAnalyze`: the validation early-returns, the warning, the
loading/reset setters, the `try` body, and the `finally` block, as
the sequence of actions performed. -/
def handleAnalyze (st : AppState) (env : HandleEnv) : List AppAction :=
  if jsTrim st.geminiApiKey = "" then
    [.setError (some "Por favor, insira sua chave de API da Gemini.")]
  else if jsTrim st.youtubeUrl = "" then
    [.setError (some "Por favor, insira um URL do YouTube.")]
  else
    warnPart st ++
    [.setIsLoading true, .setError none, .setAnalysis none,
     .setProgressMessage "🔍 Iniciando análise..."] ++
    handleTryBody st env ++
    [.setIsLoading false, .setProgressMessage ""]

/-- The state after a run of `handleAnalyze`. -/
def runHandle (st : AppState) (env : HandleEnv) : AppState :=
  (handleAnalyze st env).foldl applyAction st

/-- Does the action start one of the two service calls? -/
def isCallAction : AppAction → Bool
  | .callAnalyzePlaylist _ _ _ _ _ => true
  | .callAnalyzeMusic _ _ _ _ => true
  | _ => false

/-- Does the action write the `isLoading` flag? -/
def touchesLoading : AppAction → Bool
  | .setIsLoading _ => true
  | _ => false

/-- C6: when the trimmed Gemini key is empty, or the trimmed URL is
empty (with the key present), `handleAnalyze` performs only the
single corresponding `setError` call and returns: no service call is
started, and the resulting state differs from the initial state only
in `error` — in particular `isLoading` and `analysis` are
unchanged. -/
theorem handleAnalyze_validation_spec :
    ∀ (st : AppState) (env : HandleEnv),
      (jsTrim st.geminiApiKey = "" →
        handleAnalyze st env =
          [.setError (some "Por favor, insira sua chave de API da Gemini.")] ∧
        runHandle st env =
          { st with error := some "Por favor, insira sua chave de API da Gemini." } ∧
        (runHandle st env).isLoading = st.isLoading ∧
        (runHandle st env).analysis = st.analysis ∧
        ∀ a ∈ handleAnalyze st env, isCallAction a = false) ∧
      (jsTrim st.geminiApiKey ≠ "" → jsTrim st.youtubeUrl = "" →
        handleAnalyze st env =
          [.setError (some "Por favor, insira um URL do YouTube.")] ∧
        runHandle st env =
          { st with error := some "Por favor, insira um URL do YouTube." } ∧
        (runHandle st env).isLoading = st.isLoading ∧
        (runHandle st env).analysis = st.analysis ∧
        ∀ a ∈ handleAnalyze st env, isCallAction a = false) := by
  intro st env
  constructor
  · intro hg
    have htr : handleAnalyze st env =
        [.setError (some "Por favor, insira sua chave de API da Gemini.")] := by
      simp [handleAnalyze, hg]
    have hrun : runHandle st env =
        { st with error := some "Por favor, insira sua chave de API da Gemini." } := by
      unfold runHandle
      rw [htr]
      rfl
    refine ⟨htr, hrun, ?_, ?_, ?_⟩
    · rw [hrun]
    · rw [hrun]
    · intro a ha
      rw [htr] at ha
      simp only [List.mem_singleton] at ha
      subst ha
      rfl
  · intro hg hu
    have htr : handleAnalyze st env =
        [.setError (some "Por favor, insira um URL do YouTube.")] := by
      simp [handleAnalyze, hg, hu]
    have hrun : runHandle st env =
        { st with error := some "Por favor, insira um URL do YouTube." } := by
      unfold runHandle
      rw [htr]
      rfl
    refine ⟨htr, hrun, ?_, ?_, ?_⟩
    · rw [hrun]
    · rw [hrun]
    · intro a ha
      rw [htr] at ha
      simp only [List.mem_singleton] at ha
      subst ha
      rfl

def c6St : AppState :=
  { youtubeUrl := "https://youtu.be/abc", geminiApiKey := "   ",
    youtubeApiKey := "", lastfmApiKey := "", isPlaylist := false,
    analysis := none, isLoading := false, error := none,
    progressMessage := "" }

def c6St2 : AppState :=
  { youtubeUrl := "  ", geminiApiKey := "g", youtubeApiKey := "",
    lastfmApiKey := "", isPlaylist := false, analysis := none,
    isLoading := false, error := none, progressMessage := "" }

def c6Env : HandleEnv :=
  { playlistProgress := [], playlistOutcome := .thrown true "boom",
    musicProgress := [], musicOutcome := .thrown true "boom" }

/-- Witness for C6: a whitespace-only Gemini key and, with a key
present, a whitespace-only URL, each produce only the corresponding
`setError` and leave `isLoading` and `analysis` unchanged. -/
theorem handleAnalyze_validation_spec_witness :
    (handleAnalyze c6St c6Env =
      [.setError (some "Por favor, insira sua chave de API da Gemini.")] ∧
     runHandle c6St c6Env =
      { c6St with error := some "Por favor, insira sua chave de API da Gemini." } ∧
     (runHandle c6St c6Env).isLoading = c6St.isLoading ∧
     (runHandle c6St c6Env).analysis = c6St.analysis ∧
     ∀ a ∈ handleAnalyze c6St c6Env, isCallAction a = false) ∧
    (handleAnalyze c6St2 c6Env =
      [.setError (some "Por favor, insira um URL do YouTube.")] ∧
     runHandle c6St2 c6Env =
      { c6St2 with error := some "Por favor, insira um URL do YouTube." } ∧
     (runHandle c6St2 c6Env).isLoading = c6St2.isLoading ∧
     (runHandle c6St2 c6Env).analysis = c6St2.analysis ∧
     ∀ a ∈ handleAnalyze c6St2 c6Env, isCallAction a = false) :=
  ⟨(handleAnalyze_validation_spec c6St c6Env).1 (by decide),
   (handleAnalyze_validation_spec c6St2 c6Env).2 (by decide) (by decide)⟩

/-- C7: for every run that passes validation — for every environment,
so both when the awaited call returns a value and when it throws —
the action sequence is the optional warning, then `setIsLoading true`,
`setError null`, `setAnalysis null` and the initial progress message,
then the `try` body (which contains the service-call start and never
touches `isLoading`), then the `finally` block `setIsLoading false`,
`setProgressMessage ""`; hence the final state has `isLoading =
false` and an empty progress message. -/
theorem handleAnalyze_loading_spec :
    ∀ (st : AppState) (env : HandleEnv),
      jsTrim st.geminiApiKey ≠ "" → jsTrim st.youtubeUrl ≠ "" →
      (handleAnalyze st env =
        warnPart st ++
        [.setIsLoading true, .setError none, .setAnalysis none,
         .setProgressMessage "🔍 Iniciando análise..."] ++
        handleTryBody st env ++
        [.setIsLoading false, .setProgressMessage ""]) ∧
      (∀ a ∈ warnPart st, touchesLoading a = false) ∧
      (∀ a ∈ handleTryBody st env, touchesLoading a = false) ∧
      (∃ a ∈ handleTryBody st env, isCallAction a = true) ∧
      (runHandle st env).isLoading = false ∧
      (runHandle st env).progressMessage = "" := by
  intro st env hg hu
  have htr : handleAnalyze st env =
      warnPart st ++
      [.setIsLoading true, .setError none, .setAnalysis none,
       .setProgressMessage "🔍 Iniciando análise..."] ++
      handleTryBody st env ++
      [.setIsLoading false, .setProgressMessage ""] := by
    simp [handleAnalyze, hg, hu]
  have hfin : (runHandle st env).isLoading = false ∧
      (runHandle st env).progressMessage = "" := by
    unfold runHandle
    rw [htr, List.foldl_append]
    constructor <;> rfl
  refine ⟨htr, ?_, ?_, ?_, hfin.1, hfin.2⟩
  · intro a ha
    unfold warnPart at ha
    by_cases hw : jsTrim st.youtubeApiKey = "" || jsTrim st.lastfmApiKey = ""
    · rw [if_pos hw] at ha
      simp only [List.mem_singleton] at ha
      subst ha
      rfl
    · rw [if_neg hw] at ha
      cases ha
  · intro a ha
    unfold handleTryBody at ha
    by_cases hpl : st.isPlaylist = true
    · rw [if_pos hpl] at ha
      simp only [List.append_assoc, List.mem_append, List.mem_singleton,
        List.mem_map] at ha
      rcases ha with rfl | rfl | ⟨m, _, rfl⟩ | hout
      · rfl
      · rfl
      · rfl
      · revert hout
        cases env.playlistOutcome with
        | value pr =>
          cases htA : pr.trackAnalyses with
          | nil =>
            intro hout
            simp [htA] at hout
            subst hout
            rfl
          | cons a0 rest =>
            intro hout
            simp [htA] at hout
            subst hout
            rfl
        | thrown isErr msg =>
          intro hout
          simp at hout
          subst hout
          rfl
    · rw [if_neg hpl] at ha
      simp only [List.append_assoc, List.mem_append, List.mem_singleton,
        List.mem_map] at ha
      rcases ha with rfl | rfl | ⟨m, _, rfl⟩ | hout
      · rfl
      · rfl
      · rfl
      · revert hout
        cases env.musicOutcome with
        | value r =>
          cases hE : r.error with
          | some e =>
            by_cases he : e = ""
            · intro hout
              simp [hE, he] at hout
              subst hout
              rfl
            · intro hout
              simp [hE, he] at hout
              rcases hout with rfl | rfl <;> rfl
          | none =>
            intro hout
            simp [hE] at hout
            subst hout
            rfl
        | thrown isErr msg =>
          intro hout
          simp at hout
          subst hout
          rfl
  · unfold handleTryBody
    by_cases hpl : st.isPlaylist = true
    · refine ⟨.callAnalyzePlaylist st.youtubeUrl st.geminiApiKey
        st.youtubeApiKey st.lastfmApiKey 10, ?_, rfl⟩
      rw [if_pos hpl]
      simp
    · refine ⟨.callAnalyzeMusic st.youtubeUrl st.geminiApiKey
        st.youtubeApiKey st.lastfmApiKey, ?_, rfl⟩
      rw [if_neg hpl]
      simp

def c7St : AppState :=
  { youtubeUrl := "https://youtu.be/abc", geminiApiKey := "g",
    youtubeApiKey := "", lastfmApiKey := "", isPlaylist := false,
    analysis := none, isLoading := false, error := none,
    progressMessage := "" }

def c7Env : HandleEnv :=
  { playlistProgress := [], playlistOutcome := .thrown true "boom",
    musicProgress := ["🎤 Buscando letra..."],
    musicOutcome := .thrown true "boom" }

/-- Witness for C7: a validated run whose awaited call throws still
ends with `isLoading = false` and an empty progress message, and its
body starts a service call without touching `isLoading`. -/
theorem handleAnalyze_loading_spec_witness :
    (∀ a ∈ handleTryBody c7St c7Env, touchesLoading a = false) ∧
    (∃ a ∈ handleTryBody c7St c7Env, isCallAction a = true) ∧
    (runHandle c7St c7Env).isLoading = false ∧
    (runHandle c7St c7Env).progressMessage = "" :=
  ⟨(handleAnalyze_loading_spec c7St c7Env (by decide) (by decide)).2.2.1,
   (handleAnalyze_loading_spec c7St c7Env (by decide) (by decide)).2.2.2.1,
   (handleAnalyze_loading_spec c7St c7Env (by decide) (by decide)).2.2.2.2.1,
   (handleAnalyze_loading_spec c7St c7Env (by decide) (by decide)).2.2.2.2.2⟩
